import Mathlib

/-!
# OPTIGA Trust M platform abstraction layer on FX2G3: I2C transport arbitration

Shallow embedding of `src/COMPONENT_OPTIGA_CYHAL/pal_i2c.c`.

* The module-scope variable `g_entry_count` (a `uint32_t`) is a field of the
  explicit state `World`; its increment wraps modulo `2 ^ 32`.
* The bus driver (`cyi2c_master_write`, `cyi2c_master_read`) and the busy-wait
  `Cy_SysLib_DelayUs` are external to `pal_i2c.c`.  Every call is appended to
  `World.trace` with its arguments; the status code a driver call returns is
  read from the outcome stream `World.bus` at the index `World.bus_calls`
  (the number of driver calls made so far), so that every sequence of driver
  outcomes can be supplied.  A status code of zero is success
  (the source tests `!i2c_status` and `if (i2c_status)`).
* The upper-layer handler is a function pointer stored in the context.  It is
  `Option`: the statically allocated context `optiga_pal_i2c_context_0`
  starts with a NULL handler.  A call through a NULL handler has no defined
  result and the embedding returns `none` for it.  A registered handler is a
  transformer of the whole `World`; its invocation is recorded in the trace
  by the caller, before the handler body runs.
* `pal_status_t` and the `PAL_I2C_EVENT_*` values come from headers of the
  OPTIGA host library which are not part of this repository; they are
  embedded as enumerations with the names the source uses.
-/

namespace PalI2c

/-- Return codes of the transport entry points (`pal_status_t`). -/
inductive pal_status_t where
  | PAL_STATUS_SUCCESS
  | PAL_STATUS_FAILURE
  | PAL_STATUS_I2C_BUSY
  deriving DecidableEq, Repr

/-- Event codes handed to the upper-layer handler. -/
inductive pal_i2c_event where
  | PAL_I2C_EVENT_SUCCESS
  | PAL_I2C_EVENT_ERROR
  | PAL_I2C_EVENT_BUSY
  deriving DecidableEq, Repr

open pal_status_t pal_i2c_event

/-- Address of the OPTIGA Trust M slave (`pal_custom.h`). -/
def OPTIGA_FX_ADDR : Nat := 0x30

/-- Calls that leave `pal_i2c.c`, with their arguments (the bus instance is
always `SCB0` and is not recorded). -/
inductive Effect where
  | master_write (dev_addr : Nat) (data : List Nat) (size : Nat) (send_stop : Bool)
  | master_read (dev_addr : Nat) (data : List Nat) (size : Nat) (send_stop : Bool)
  | delay_us (us : Nat)
  | upper_layer_callback (ctx : Nat) (event : pal_i2c_event)
  | usb_i2c_init
  deriving DecidableEq, Repr

/-- Program state seen by `pal_i2c.c`: the arbitration counter, the driver's
outcome stream with the number of driver calls made, the trace of external
calls, and the state `upper` owned by the upper layer. -/
structure World (U : Type) where
  g_entry_count : Nat
  bus : Nat → Nat
  bus_calls : Nat
  trace : List Effect
  upper : U

/-- Type of the upper-layer handler: `(p_upper_layer_ctx, event)` acting on
the program state. -/
abbrev upper_layer_callback_t (U : Type) : Type :=
  Nat → pal_i2c_event → World U → World U

/-- Transport context `pal_i2c_t`; pointers are addresses, the handler is
`none` when NULL. -/
structure pal_i2c_t (U : Type) where
  p_i2c_hw_config : Nat
  p_upper_layer_ctx : Nat
  upper_layer_event_handler : Option (upper_layer_callback_t U)
  slave_address : Nat

variable {U : Type}

/-- Driver call `cyi2c_master_write(SCB0, dev_addr, data, size, send_stop)`
as seen from `pal_i2c.c`: recorded in the trace, status from the outcome
stream. -/
def cyi2c_master_write (dev_addr : Nat) (data : List Nat) (size : Nat)
    (send_stop : Bool) (w : World U) : Nat × World U :=
  (w.bus w.bus_calls,
   { w with bus_calls := w.bus_calls + 1,
            trace := w.trace ++ [Effect.master_write dev_addr data size send_stop] })

/-- Driver call `cyi2c_master_read(SCB0, dev_addr, data, size, send_stop)`
as seen from `pal_i2c.c`. -/
def cyi2c_master_read (dev_addr : Nat) (data : List Nat) (size : Nat)
    (send_stop : Bool) (w : World U) : Nat × World U :=
  (w.bus w.bus_calls,
   { w with bus_calls := w.bus_calls + 1,
            trace := w.trace ++ [Effect.master_read dev_addr data size send_stop] })

/-- Busy-wait `Cy_SysLib_DelayUs(us)`: only recorded. -/
def Cy_SysLib_DelayUs (us : Nat) (w : World U) : World U :=
  { w with trace := w.trace ++ [Effect.delay_us us] }

/-- Call through the handler pointer of the context:
`((upper_layer_callback_t)(ctx->upper_layer_event_handler))(ctx->p_upper_layer_ctx, event)`.
The call is recorded, then the handler body runs; `none` when the pointer is
NULL. -/
def call_upper_layer_event_handler (ctx : pal_i2c_t U) (event : pal_i2c_event)
    (w : World U) : Option (World U) :=
  match ctx.upper_layer_event_handler with
  | none => none
  | some handler =>
    some (handler ctx.p_upper_layer_ctx event
      { w with trace := w.trace ++ [Effect.upper_layer_callback ctx.p_upper_layer_ctx event] })

/-- Source `pal_i2c_acquire` (lines 52-67): test the counter for zero,
increment it (32-bit), and grant when it reads one. -/
def pal_i2c_acquire (w : World U) : pal_status_t × World U :=
  if w.g_entry_count = 0 then
    let w1 : World U := { w with g_entry_count := (w.g_entry_count + 1) % 2 ^ 32 }
    if w1.g_entry_count = 1 then
      (PAL_STATUS_SUCCESS, w1)
    else
      (PAL_STATUS_FAILURE, w1)
  else
    (PAL_STATUS_FAILURE, w)

/-- Source `pal_i2c_release` (lines 69-76): `g_entry_count = 0`. -/
def pal_i2c_release (w : World U) : World U :=
  { w with g_entry_count := 0 }

/-- The loop of `pal_i2c_write` (lines 138-142),
`for (int i = 0; i < 3; i++) { i2c_status = cyi2c_master_write(...);
Cy_SysLib_DelayUs(100); if (!i2c_status) break; }`.
The first argument is the number `3 - i` of iterations still allowed;
`i2c_status` is `none` as long as it has not been assigned. -/
def pal_i2c_write_loop (p_data : List Nat) (length : Nat) :
    Nat → Option Nat → World U → Option Nat × World U
  | 0, i2c_status, w => (i2c_status, w)
  | n + 1, _, w =>
    let r := cyi2c_master_write OPTIGA_FX_ADDR p_data length true w
    let w2 := Cy_SysLib_DelayUs 100 r.2
    if r.1 = 0 then (some r.1, w2) else pal_i2c_write_loop p_data length n (some r.1) w2

/-- Source `pal_i2c_write` (lines 131-182).  The result is `none` when the
call goes through a NULL handler (or would read `i2c_status` unassigned). -/
def pal_i2c_write (p_i2c_context : pal_i2c_t U) (p_data : List Nat) (length : Nat)
    (w : World U) : Option (pal_status_t × World U) :=
  let status := PAL_STATUS_FAILURE
  let a := pal_i2c_acquire w
  if a.1 = PAL_STATUS_SUCCESS then
    let l := pal_i2c_write_loop p_data length 3 none a.2
    match l.1 with
    | none => none
    | some i2c_status =>
      if i2c_status ≠ 0 then
        (call_upper_layer_event_handler p_i2c_context PAL_I2C_EVENT_ERROR l.2).map
          (fun w3 => (status, pal_i2c_release w3))
      else
        (call_upper_layer_event_handler p_i2c_context PAL_I2C_EVENT_SUCCESS
            (pal_i2c_release l.2)).map
          (fun w3 => (PAL_STATUS_SUCCESS, w3))
  else
    (call_upper_layer_event_handler p_i2c_context PAL_I2C_EVENT_BUSY a.2).map
      (fun w3 => (PAL_STATUS_I2C_BUSY, w3))

/-- Source `pal_i2c_read` (lines 184-226): one driver call, and a release at
the end on every path. -/
def pal_i2c_read (p_i2c_context : pal_i2c_t U) (p_data : List Nat) (length : Nat)
    (w : World U) : Option (pal_status_t × World U) :=
  let status := PAL_STATUS_FAILURE
  let a := pal_i2c_acquire w
  let r : Option (pal_status_t × World U) :=
    if a.1 = PAL_STATUS_SUCCESS then
      let d := cyi2c_master_read OPTIGA_FX_ADDR p_data length true a.2
      if d.1 ≠ 0 then
        (call_upper_layer_event_handler p_i2c_context PAL_I2C_EVENT_ERROR d.2).map
          (fun w3 => (status, pal_i2c_release w3))
      else
        (call_upper_layer_event_handler p_i2c_context PAL_I2C_EVENT_SUCCESS d.2).map
          (fun w3 => (PAL_STATUS_SUCCESS, w3))
    else
      (call_upper_layer_event_handler p_i2c_context PAL_I2C_EVENT_BUSY a.2).map
        (fun w3 => (PAL_STATUS_I2C_BUSY, w3))
  r.map (fun sw => (sw.1, pal_i2c_release sw.2))

/-- Target data rate `I2C_DATARATE` (`usb_i2c.h`). -/
def I2C_DATARATE : Nat := 100000

/-- Source `Cy_USB_I2CInit` (`usb_i2c.c`, lines 252-306) as seen from
`pal_i2c.c`.  It programs the clock, the pins and the SCB block (one trace
entry) and makes no call through a transport context.  `dataRate` is the
value the hardware call `Cy_SCB_I2C_SetDataRate` returns; when it is above
`I2C_DATARATE` or zero the function spins in `while(1);` and never returns
(`none`). -/
def Cy_USB_I2CInit (dataRate : Nat) (w : World U) : Option (World U) :=
  if dataRate > I2C_DATARATE ∨ dataRate = 0 then
    none
  else
    some { w with trace := w.trace ++ [Effect.usb_i2c_init] }

set_option linter.unusedVariables false in
/-- Source `pal_i2c_init` (lines 116-121): `Cy_USB_I2CInit(); return PAL_STATUS_SUCCESS;`.
The context is not used. -/
def pal_i2c_init (p_i2c_context : pal_i2c_t U) (dataRate : Nat) (w : World U) :
    Option (pal_status_t × World U) :=
  (Cy_USB_I2CInit dataRate w).map (fun w1 => (PAL_STATUS_SUCCESS, w1))

set_option linter.unusedVariables false in
/-- Source `pal_i2c_deinit` (lines 123-129): `return PAL_STATUS_SUCCESS;`. -/
def pal_i2c_deinit (p_i2c_context : pal_i2c_t U) (w : World U) : pal_status_t × World U :=
  (PAL_STATUS_SUCCESS, w)

set_option linter.unusedVariables false in
/-- Source `pal_i2c_set_bitrate` (lines 228-236): the bit rate is not used,
`return_status = PAL_STATUS_SUCCESS; return return_status;`. -/
def pal_i2c_set_bitrate (p_i2c_context : pal_i2c_t U) (bitrate : Nat) (w : World U) :
    pal_status_t × World U :=
  let return_status := PAL_STATUS_SUCCESS
  (return_status, w)

/-! ### Blocking-wait bridge of the application (`optiga_app.c`, `optiga_app.h`) -/

/-- Numeric values of status macros defined in headers of the OPTIGA host
library, which are not part of this repository: `OPTIGA_LIB_SUCCESS`,
`OPTIGA_LIB_BUSY`, and the values of the three `PAL_I2C_EVENT_*` macros
(all of type `optiga_lib_status_t`). -/
structure lib_status_codes where
  OPTIGA_LIB_SUCCESS : Nat
  OPTIGA_LIB_BUSY : Nat
  event_code : pal_i2c_event → Nat

/-- Source `optiga_lib_callback` (`optiga_app.c`, lines 54-59) as the body of
an upper-layer handler: `optiga_lib_status = return_status;` (the branch on
`context` is empty).  The upper layer's state is the variable
`optiga_lib_status`. -/
def optiga_lib_callback (K : lib_status_codes) : Nat → pal_i2c_event → Nat → Nat :=
  fun _context return_status _optiga_lib_status => K.event_code return_status

/-- The wait loop of `WAIT_AND_CHECK_STATUS`,
`while (OPTIGA_LIB_BUSY == optiga_lib_status) { }`, with no other context
writing `optiga_lib_status` meanwhile: the number of iterations made before
the loop exits, `none` when the fuel runs out first. -/
def wait_while_busy (K : lib_status_codes) (optiga_lib_status : Nat) : Nat → Option Nat
  | 0 => none
  | fuel + 1 =>
    if K.OPTIGA_LIB_BUSY = optiga_lib_status then
      (wait_while_busy K optiga_lib_status fuel).map (fun n => n + 1)
    else
      some 0

/-- What one expansion of `WAIT_AND_CHECK_STATUS` leaves behind: the value of
`return_status`, whether a `break` was taken, and the number of iterations of
the wait loop. -/
structure WaitOutcome where
  return_status : Nat
  break_taken : Bool
  iterations : Nat
  deriving DecidableEq, Repr

/-- Source macro `WAIT_AND_CHECK_STATUS(return_status, optiga_lib_status)`
(`optiga_app.h`, lines 80-91). -/
def WAIT_AND_CHECK_STATUS (K : lib_status_codes) (fuel : Nat)
    (return_status optiga_lib_status : Nat) : Option WaitOutcome :=
  if K.OPTIGA_LIB_SUCCESS ≠ return_status then
    some { return_status := return_status, break_taken := true, iterations := 0 }
  else
    match wait_while_busy K optiga_lib_status fuel with
    | none => none
    | some n =>
      if K.OPTIGA_LIB_SUCCESS ≠ optiga_lib_status then
        some { return_status := optiga_lib_status, break_taken := true, iterations := n }
      else
        some { return_status := return_status, break_taken := false, iterations := n }

/-! ### Observations on traces and handlers used in the statements -/

/-- Handler that acts on the upper layer's own state only (it makes no call
into the transport): the body `f` sees the context pointer and the event. -/
def upper_only (f : Nat → pal_i2c_event → U → U) : upper_layer_callback_t U :=
  fun ctx event w => { w with upper := f ctx event w.upper }

/-- Events delivered to the handler, in order. -/
def callbacks : List Effect → List (Nat × pal_i2c_event)
  | [] => []
  | Effect.upper_layer_callback c e :: t => (c, e) :: callbacks t
  | _ :: t => callbacks t

/-- Number of `cyi2c_master_write` calls in a trace. -/
def master_writes : List Effect → Nat
  | [] => 0
  | Effect.master_write _ _ _ _ :: t => master_writes t + 1
  | _ :: t => master_writes t

/-- Number of `cyi2c_master_read` calls in a trace. -/
def master_reads : List Effect → Nat
  | [] => 0
  | Effect.master_read _ _ _ _ :: t => master_reads t + 1
  | _ :: t => master_reads t


/-- The two trace entries of one write attempt. -/
def attempt (p_data : List Nat) (length : Nat) : List Effect :=
  [Effect.master_write OPTIGA_FX_ADDR p_data length true, Effect.delay_us 100]

/-- Trace of `n` consecutive write attempts. -/
def attempts (p_data : List Nat) (length : Nat) : Nat → List Effect
  | 0 => []
  | n + 1 => attempt p_data length ++ attempts p_data length n

/-- Final state of a granted `pal_i2c_write` that made `n` attempts and then
delivered `ev` to a handler `upper_only f`. -/
def write_done (ctx : pal_i2c_t U) (f : Nat → pal_i2c_event → U → U)
    (p_data : List Nat) (length : Nat) (n : Nat) (ev : pal_i2c_event) (w : World U) :
    World U :=
  { g_entry_count := 0, bus := w.bus, bus_calls := w.bus_calls + n,
    trace := w.trace ++ (attempts p_data length n ++
      [Effect.upper_layer_callback ctx.p_upper_layer_ctx ev]),
    upper := f ctx.p_upper_layer_ctx ev w.upper }

/-- What is observed of one `pal_i2c_write` call in a run: the result of the
acquire it performs on entry, the status it returns, and the value of
`g_entry_count` when it returns. -/
structure WriteObs where
  acquire : pal_status_t
  status : pal_status_t
  token_after : Nat
  deriving DecidableEq, Repr

/-- A caller issuing `pal_i2c_write` once per request `(p_data, length)`, in
order, on the same context. -/
def pal_i2c_write_seq (ctx : pal_i2c_t U) :
    List (List Nat × Nat) → World U → Option (List WriteObs × World U)
  | [], w => some ([], w)
  | req :: rest, w =>
    match pal_i2c_write ctx req.1 req.2 w with
    | none => none
    | some (st, w1) =>
      match pal_i2c_write_seq ctx rest w1 with
      | none => none
      | some (obs, w2) =>
        some ({ acquire := (pal_i2c_acquire w).1, status := st,
                token_after := w1.g_entry_count } :: obs, w2)

/-! ### Sample inputs -/

/-- Handler body that appends the delivered event to the upper layer's log. -/
def log_event : Nat → pal_i2c_event → List pal_i2c_event → List pal_i2c_event :=
  fun _ ev log => log ++ [ev]

/-- Context with `log_event` registered. -/
def sample_ctx : pal_i2c_t (List pal_i2c_event) :=
  { p_i2c_hw_config := 1, p_upper_layer_ctx := 7,
    upper_layer_event_handler := some (upper_only log_event),
    slave_address := OPTIGA_FX_ADDR }

/-- World with the given counter value and driver outcomes, nothing done yet. -/
def sample_world (g : Nat) (bus : Nat → Nat) : World (List pal_i2c_event) :=
  { g_entry_count := g, bus := bus, bus_calls := 0, trace := [], upper := [] }

/-- Driver that fails (status 2) on its first two calls and succeeds after. -/
def fail_fail_ok : Nat → Nat := fun k => if k < 2 then 2 else 0

/-- Driver that fails (status 2) on every call. -/
def always_fail : Nat → Nat := fun _ => 2

/-- Driver that succeeds on every call. -/
def always_ok : Nat → Nat := fun _ => 0

/-- Values of the status macros as the OPTIGA host library defines them:
`OPTIGA_LIB_SUCCESS = 0x0000`, `OPTIGA_LIB_BUSY = 0x0001`,
`PAL_I2C_EVENT_SUCCESS = 0x0000`, `PAL_I2C_EVENT_ERROR = 0x0001`,
`PAL_I2C_EVENT_BUSY = 0x0002`. -/
def host_library_codes : lib_status_codes :=
  { OPTIGA_LIB_SUCCESS := 0x0000, OPTIGA_LIB_BUSY := 0x0001,
    event_code := fun e =>
      match e with
      | PAL_I2C_EVENT_SUCCESS => 0x0000
      | PAL_I2C_EVENT_ERROR => 0x0001
      | PAL_I2C_EVENT_BUSY => 0x0002 }

/-- Context with `optiga_lib_callback` registered. -/
def app_ctx (K : lib_status_codes) : pal_i2c_t Nat :=
  { p_i2c_hw_config := 1, p_upper_layer_ctx := 0,
    upper_layer_event_handler := some (upper_only (optiga_lib_callback K)),
    slave_address := OPTIGA_FX_ADDR }

/-- World of the end-to-end scenario: token free, `optiga_lib_status` set to
the Busy sentinel, the driver succeeding. -/
def app_world (K : lib_status_codes) : World Nat :=
  { g_entry_count := 0, bus := always_ok, bus_calls := 0, trace := [],
    upper := K.OPTIGA_LIB_BUSY }

/-! ### Interrupt-style callbacks and the current-context pointer -/

/-- Source `invoke_upper_layer_callback` (lines 78-88): the handler is read
through `p_pal_i2c_ctx` and called, then the bus is released.  `none` when the
pointer is NULL (the read of `upper_layer_event_handler` goes through it) or
the handler is NULL. -/
def invoke_upper_layer_callback (p_pal_i2c_ctx : Option (pal_i2c_t U))
    (event : pal_i2c_event) (w : World U) : Option (World U) :=
  match p_pal_i2c_ctx with
  | none => none
  | some ctx => (call_upper_layer_event_handler ctx event w).map pal_i2c_release

/-- The two module-scope variables of `pal_i2c.c`: `g_entry_count` (inside
`world`) and the pointer `gp_pal_i2c_current_ctx` (`none` is NULL).  Both are
`static`, so a handler, which acts on `World`, cannot reach the pointer. -/
structure Module (U : Type) where
  world : World U
  gp_pal_i2c_current_ctx : Option (pal_i2c_t U)

/-- Source `i2c_master_end_of_transmit_callback` (lines 91-94). -/
def i2c_master_end_of_transmit_callback (m : Module U) : Option (Module U) :=
  (invoke_upper_layer_callback m.gp_pal_i2c_current_ctx PAL_I2C_EVENT_SUCCESS m.world).map
    (fun w => { m with world := w })

/-- Source `i2c_master_end_of_receive_callback` (lines 96-99). -/
def i2c_master_end_of_receive_callback (m : Module U) : Option (Module U) :=
  (invoke_upper_layer_callback m.gp_pal_i2c_current_ctx PAL_I2C_EVENT_SUCCESS m.world).map
    (fun w => { m with world := w })

/-- Source `i2c_master_error_detected_callback` (lines 101-104). -/
def i2c_master_error_detected_callback (m : Module U) : Option (Module U) :=
  (invoke_upper_layer_callback m.gp_pal_i2c_current_ctx PAL_I2C_EVENT_ERROR m.world).map
    (fun w => { m with world := w })

/-- Source `i2c_master_nack_received_callback` (lines 106-109). -/
def i2c_master_nack_received_callback (m : Module U) : Option (Module U) :=
  i2c_master_error_detected_callback m

/-- Source `i2c_master_arbitration_lost_callback` (lines 111-114). -/
def i2c_master_arbitration_lost_callback (m : Module U) : Option (Module U) :=
  i2c_master_error_detected_callback m

/-- One call into `pal_i2c.c`: an entry point with its arguments, or one of
the five interrupt-style callbacks. -/
inductive Op (U : Type) where
  | init (ctx : pal_i2c_t U) (dataRate : Nat)
  | deinit (ctx : pal_i2c_t U)
  | write (ctx : pal_i2c_t U) (p_data : List Nat) (length : Nat)
  | read (ctx : pal_i2c_t U) (p_data : List Nat) (length : Nat)
  | set_bitrate (ctx : pal_i2c_t U) (bitrate : Nat)
  | end_of_transmit
  | end_of_receive
  | error_detected
  | nack_received
  | arbitration_lost

/-- Effect of one call on the module state; `none` when the call does not
return.  The entry points act on `world` only: their source does not mention
`gp_pal_i2c_current_ctx`. -/
def step : Op U → Module U → Option (Module U)
  | Op.init ctx dataRate, m =>
    (pal_i2c_init ctx dataRate m.world).map (fun r => { m with world := r.2 })
  | Op.deinit ctx, m => some { m with world := (pal_i2c_deinit ctx m.world).2 }
  | Op.write ctx p_data length, m =>
    (pal_i2c_write ctx p_data length m.world).map (fun r => { m with world := r.2 })
  | Op.read ctx p_data length, m =>
    (pal_i2c_read ctx p_data length m.world).map (fun r => { m with world := r.2 })
  | Op.set_bitrate ctx bitrate, m =>
    some { m with world := (pal_i2c_set_bitrate ctx bitrate m.world).2 }
  | Op.end_of_transmit, m => i2c_master_end_of_transmit_callback m
  | Op.end_of_receive, m => i2c_master_end_of_receive_callback m
  | Op.error_detected, m => i2c_master_error_detected_callback m
  | Op.nack_received, m => i2c_master_nack_received_callback m
  | Op.arbitration_lost, m => i2c_master_arbitration_lost_callback m

/-- A sequence of calls, in order. -/
def run : List (Op U) → Module U → Option (Module U)
  | [], m => some m
  | op :: rest, m =>
    match step op m with
    | none => none
    | some m1 => run rest m1

/-- State of the module at start-up: the static pointer is NULL. -/
def module_startup (w : World U) : Module U :=
  { world := w, gp_pal_i2c_current_ctx := none }

/-! ### Observations for the peer address and for calls made inside a callback -/

/-- Whether a trace entry, when it is a driver call, goes to `OPTIGA_FX_ADDR`
with the stop flag set. -/
def to_fixed_peer : Effect → Bool
  | Effect.master_write dev_addr _ _ send_stop => dev_addr == OPTIGA_FX_ADDR && send_stop
  | Effect.master_read dev_addr _ _ send_stop => dev_addr == OPTIGA_FX_ADDR && send_stop
  | _ => true

/-- The state on which the handler body runs in `pal_i2c_write` (event
already recorded) after `n` attempts: the counter is 0 for the Success event,
which is delivered after the release, and 1 for the Error event, which is
delivered before it. -/
def write_callback_world (ctx : pal_i2c_t U) (p_data : List Nat) (length : Nat) (n : Nat)
    (ev : pal_i2c_event) (w : World U) : World U :=
  { g_entry_count := if ev = PAL_I2C_EVENT_SUCCESS then 0 else 1,
    bus := w.bus, bus_calls := w.bus_calls + n,
    trace := w.trace ++ (attempts p_data length n ++
      [Effect.upper_layer_callback ctx.p_upper_layer_ctx ev]),
    upper := w.upper }

/-- The state on which the handler body runs in a granted `pal_i2c_read`: the
counter is still 1. -/
def read_callback_world (ctx : pal_i2c_t U) (p_data : List Nat) (length : Nat)
    (ev : pal_i2c_event) (w : World U) : World U :=
  { g_entry_count := 1, bus := w.bus, bus_calls := w.bus_calls + 1,
    trace := w.trace ++ [Effect.master_read OPTIGA_FX_ADDR p_data length true,
      Effect.upper_layer_callback ctx.p_upper_layer_ctx ev],
    upper := w.upper }

/-- Context whose handler does nothing. -/
def inert_ctx : pal_i2c_t (List (Nat × pal_status_t)) :=
  { p_i2c_hw_config := 1, p_upper_layer_ctx := 9,
    upper_layer_event_handler := some (upper_only (fun _ _ log => log)),
    slave_address := OPTIGA_FX_ADDR }

/-- Handler that makes a transport call from inside the callback (a
`pal_i2c_read` or a `pal_i2c_write` on `inert_ctx`) and logs the value of
`g_entry_count` it was entered with together with the status the nested call
returned. -/
def probe (use_read : Bool) (p_data : List Nat) (length : Nat) :
    upper_layer_callback_t (List (Nat × pal_status_t)) :=
  fun _ctx _event w =>
    match (if use_read then pal_i2c_read inert_ctx p_data length w
           else pal_i2c_write inert_ctx p_data length w) with
    | none => w
    | some r => { r.2 with upper := r.2.upper ++ [(w.g_entry_count, r.1)] }

/-- Context with `probe` registered. -/
def probe_ctx (use_read : Bool) (p_data : List Nat) (length : Nat) :
    pal_i2c_t (List (Nat × pal_status_t)) :=
  { p_i2c_hw_config := 1, p_upper_layer_ctx := 7,
    upper_layer_event_handler := some (probe use_read p_data length),
    slave_address := OPTIGA_FX_ADDR }

/-- World for `probe_ctx`, nothing done yet. -/
def probe_world (g : Nat) (bus : Nat → Nat) : World (List (Nat × pal_status_t)) :=
  { g_entry_count := g, bus := bus, bus_calls := 0, trace := [], upper := [] }

end PalI2c

/-!
# One-shot event timer (`src/COMPONENT_OPTIGA_CYHAL/pal_os_event.c`)

* `pal_os_event_t` objects live in a memory indexed by address; the global
  instance `pal_os_event_0` is the object at the address of that name.  The
  flag `is_event_triggered` is a `Bool` (`TRUE` / `FALSE`); the function
  pointer `callback_registered` and the argument `callback_ctx` are
  addresses, zero being NULL.
* The FreeRTOS timer service is external.  Every call to it is appended to
  the trace with its arguments, and its return value (the handle for
  `xTimerCreate`, the status for the others) is read from the stream
  `World.rtos` at the index `World.rtos_calls`.
* The code behind a function address is given by a table
  `prog : address → argument → World → World`; the invocation is recorded in
  the trace before the body runs.
-/

namespace PalOsEvent

/-- Success status `pdPASS` of the FreeRTOS timer API. -/
def pdPASS : Nat := 1

/-- Calls that leave `pal_os_event.c`: the FreeRTOS timer API (`xTimerCreate`
with its period in ticks, the auto-reload flag and the timer id; the name and
the wrapper `Cy_PAL_CbkWrapper` are constant), the invocation of a registered
callback, and the error log of `pal_os_event_destroy`. -/
inductive Effect where
  | xTimerCreate (period : Nat) (auto_reload : Bool) (timer_id : Nat)
  | xTimerStart (timer : Nat) (ticks_to_wait : Nat)
  | xTimerStop (timer : Nat) (ticks_to_wait : Nat)
  | xTimerDelete (timer : Nat) (ticks_to_wait : Nat)
  | callback (fn : Nat) (arg : Nat)
  | log_error (timerStopStatus : Nat) (timerDeleteStatus : Nat)
  deriving DecidableEq, Repr

/-- Event slot `pal_os_event_t` (the fields `pal_os_event.c` uses). -/
structure pal_os_event_t where
  is_event_triggered : Bool
  callback_registered : Nat
  callback_ctx : Nat
  deriving DecidableEq, Repr

/-- Program state seen by `pal_os_event.c`: the event objects by address, the
globals `fx_optiga_timer` and `timer_created`, the return values of the RTOS
calls with the number of calls made, the trace, and the upper layer's state. -/
structure World (U : Type) where
  events : Nat → pal_os_event_t
  fx_optiga_timer : Nat
  timer_created : Bool
  rtos : Nat → Nat
  rtos_calls : Nat
  trace : List Effect
  upper : U

/-- Address of the global event instance `pal_os_event_0`. -/
def pal_os_event_0 : Nat := 1

variable {U : Type}

/-- One call into the RTOS: recorded, return value from the stream. -/
def rtos_call (e : Effect) (w : World U) : Nat × World U :=
  (w.rtos w.rtos_calls,
   { w with rtos_calls := w.rtos_calls + 1, trace := w.trace ++ [e] })

/-- Source `pal_os_event_register_callback_oneshot` (lines 90-104). -/
def pal_os_event_register_callback_oneshot (p_pal_os_event : Nat) (callback : Nat)
    (callback_args : Nat) (time_us : Nat) (w : World U) : World U :=
  let ev : pal_os_event_t :=
    { w.events p_pal_os_event with callback_registered := callback,
                                   callback_ctx := callback_args }
  let w1 : World U := { w with events := Function.update w.events p_pal_os_event ev }
  let w2 : World U :=
    if w1.timer_created = false then
      let time_ms := if time_us < 1000 then 1 else time_us / 1000
      let r := rtos_call (Effect.xTimerCreate time_ms false p_pal_os_event) w1
      { r.2 with fx_optiga_timer := r.1, timer_created := true }
    else
      w1
  (rtos_call (Effect.xTimerStart w2.fx_optiga_timer 0) w2).2

/-- Source `pal_os_event_start` (lines 56-61). -/
def pal_os_event_start (p_pal_os_event : Nat) (callback : Nat) (callback_args : Nat)
    (w : World U) : World U :=
  if (w.events p_pal_os_event).is_event_triggered = false then
    let ev : pal_os_event_t := { w.events p_pal_os_event with is_event_triggered := true }
    let w1 : World U := { w with events := Function.update w.events p_pal_os_event ev }
    pal_os_event_register_callback_oneshot p_pal_os_event callback callback_args 1000 w1
  else
    w

/-- Source `pal_os_event_trigger_registered_callback` (lines 79-88): it reads
the global instance `pal_os_event_0`. -/
def pal_os_event_trigger_registered_callback (prog : Nat → Nat → World U → World U)
    (w : World U) : World U :=
  if (w.events pal_os_event_0).callback_registered ≠ 0 then
    let callback := (w.events pal_os_event_0).callback_registered
    prog callback (w.events pal_os_event_0).callback_ctx
      { w with trace := w.trace ++
          [Effect.callback callback (w.events pal_os_event_0).callback_ctx] }
  else
    w

set_option linter.unusedVariables false in
/-- Source `pal_os_event_destroy` (lines 106-120). -/
def pal_os_event_destroy (pal_os_event : Nat) (w : World U) : World U :=
  let s := rtos_call (Effect.xTimerStop w.fx_optiga_timer 0) w
  let d := rtos_call (Effect.xTimerDelete s.2.fx_optiga_timer 0) s.2
  if s.1 = pdPASS ∧ d.1 = pdPASS then
    { d.2 with timer_created := false }
  else
    { d.2 with trace := d.2.trace ++ [Effect.log_error s.1 d.1] }

/-- Source `pal_os_event_stop` (lines 63-65): `is_event_triggered = FALSE`. -/
def pal_os_event_stop (p_pal_os_event : Nat) (w : World U) : World U :=
  let ev : pal_os_event_t := { w.events p_pal_os_event with is_event_triggered := false }
  { w with events := Function.update w.events p_pal_os_event ev }

set_option linter.unusedVariables false in
/-- Source `Cy_PAL_CbkWrapper` (lines 75-77), the function the RTOS runs when
the timer expires: the handle is dropped and the registered callback is
triggered. -/
def Cy_PAL_CbkWrapper (prog : Nat → Nat → World U → World U) (xTimer : Nat)
    (w : World U) : World U :=
  pal_os_event_trigger_registered_callback prog w

/-! ### Observations and sample inputs -/

/-- Number of `xTimerCreate` calls in a trace. -/
def timer_creates : List Effect → Nat
  | [] => 0
  | Effect.xTimerCreate _ _ _ :: t => timer_creates t + 1
  | _ :: t => timer_creates t

/-- Number of `xTimerStart` calls in a trace. -/
def timer_starts : List Effect → Nat
  | [] => 0
  | Effect.xTimerStart _ _ :: t => timer_starts t + 1
  | _ :: t => timer_starts t

/-- Callback invocations in a trace, in order, as `(function, argument)`. -/
def invocations : List Effect → List (Nat × Nat)
  | [] => []
  | Effect.callback fn arg :: t => (fn, arg) :: invocations t
  | _ :: t => invocations t

/-- One request to `pal_os_event_register_callback_oneshot`. -/
structure RegisterReq where
  p_pal_os_event : Nat
  callback : Nat
  callback_args : Nat
  time_us : Nat
  deriving DecidableEq, Repr

/-- Successive `pal_os_event_register_callback_oneshot` calls, nothing in
between. -/
def register_seq : List RegisterReq → World U → World U
  | [], w => w
  | r :: rest, w =>
    register_seq rest
      (pal_os_event_register_callback_oneshot r.p_pal_os_event r.callback r.callback_args
        r.time_us w)

/-- Code table in which every callback acts on the upper layer's state only. -/
def upper_only (f : Nat → Nat → U → U) : Nat → Nat → World U → World U :=
  fun fn arg w => { w with upper := f fn arg w.upper }

/-- Callback body that logs which function ran with which argument. -/
def log_call : Nat → Nat → List (Nat × Nat) → List (Nat × Nat) :=
  fun fn arg log => log ++ [(fn, arg)]

/-- State at start-up: `pal_os_event_0 = {0}`, no timer, empty trace. -/
def startup (rtos : Nat → Nat) : World (List (Nat × Nat)) :=
  { events := fun _ => { is_event_triggered := false, callback_registered := 0,
                         callback_ctx := 0 },
    fx_optiga_timer := 0, timer_created := false, rtos := rtos, rtos_calls := 0,
    trace := [], upper := [] }

/-- RTOS in which the k-th call returns `100 + k` (a handle for
`xTimerCreate`; a status other than `pdPASS` for stop and delete). -/
def rtos_numbered : Nat → Nat := fun k => 100 + k

/-- RTOS in which every call returns `pdPASS`. -/
def rtos_pass : Nat → Nat := fun _ => pdPASS

end PalOsEvent

/-!
# GPIO control (`src/COMPONENT_OPTIGA_CYHAL/pal_gpio.c`)

A pointer that may be NULL is an `Option`.  The PDL pin driver is external:
its call is appended to the trace with its arguments and its return value is
read from the stream `World.gpio`.
-/

namespace PalGpio

open PalI2c.pal_status_t

/-- Success value `CY_GPIO_SUCCESS` of the PDL GPIO driver. -/
def CY_GPIO_SUCCESS : Nat := 0

/-- Pin descriptor `cy_stc_gpio_ctx_t` (`pal_custom.h`): port, pin number and
pin configuration. -/
structure cy_stc_gpio_ctx_t where
  fx_gpio_port : Nat
  fx_gpio_pin : Nat
  fx_gpio_pinCfg : Nat
  deriving DecidableEq, Repr

/-- Line descriptor `pal_gpio_t`: the pointer `p_gpio_hw`. -/
structure pal_gpio_t where
  p_gpio_hw : Option cy_stc_gpio_ctx_t
  deriving DecidableEq, Repr

/-- Calls into the PDL pin driver. -/
inductive Effect where
  | Cy_GPIO_Pin_Init (port : Nat) (pin : Nat) (pinCfg : Nat)
  deriving DecidableEq, Repr

/-- Return values of the pin driver with the number of calls made, and the
trace. -/
structure World where
  gpio : Nat → Nat
  gpio_calls : Nat
  trace : List Effect

/-- Source `pal_gpio_init` (lines 42-73). -/
def pal_gpio_init (p_gpio_context : Option pal_gpio_t) (w : World) :
    PalI2c.pal_status_t × World :=
  match p_gpio_context with
  | some ctx =>
    match ctx.p_gpio_hw with
    | some hw =>
      let gpio_status := w.gpio w.gpio_calls
      let w1 : World :=
        { w with gpio_calls := w.gpio_calls + 1,
                 trace := w.trace ++
                   [Effect.Cy_GPIO_Pin_Init hw.fx_gpio_port hw.fx_gpio_pin hw.fx_gpio_pinCfg] }
      (if gpio_status = CY_GPIO_SUCCESS then PAL_STATUS_SUCCESS else PAL_STATUS_FAILURE, w1)
    | none => (PAL_STATUS_FAILURE, w)
  | none => (PAL_STATUS_FAILURE, w)

/-- World in which nothing was done yet. -/
def gpio_startup (gpio : Nat → Nat) : World :=
  { gpio := gpio, gpio_calls := 0, trace := [] }

/-- Reset line of the secure element on port 5, pin 3, configuration 8. -/
def sample_line : pal_gpio_t :=
  { p_gpio_hw := some { fx_gpio_port := 5, fx_gpio_pin := 3, fx_gpio_pinCfg := 8 } }

end PalGpio

/-!
# Monotonic clock (`src/COMPONENT_OPTIGA_CYHAL/pal_os_timer.c`)

The RTOS tick count is an argument; values of type `uint32_t` are reduced
modulo `2 ^ 32`.
-/

namespace PalOsTimer

/-- Source `pal_os_timer_get_time_in_milliseconds` (lines 58-61):
`(uint32_t)xTaskGetTickCount()`. -/
def pal_os_timer_get_time_in_milliseconds (xTaskGetTickCount : Nat) : Nat :=
  xTaskGetTickCount % 2 ^ 32

/-- Source `pal_os_timer_get_time_in_microseconds` (lines 63-67):
`time_in_ms * 1000` in 32-bit arithmetic. -/
def pal_os_timer_get_time_in_microseconds (xTaskGetTickCount : Nat) : Nat :=
  let time_in_ms := pal_os_timer_get_time_in_milliseconds xTaskGetTickCount
  (time_in_ms * 1000) % 2 ^ 32

end PalOsTimer

/-!
# Bus driver (`src/usb_i2c.c`)

* The PDL functions are external.  Each call is appended to the trace; a call
  that returns a status reads it from the stream `World.pdl` at the index
  `World.pdl_calls`, and afterwards `I2C_context.state` is idle or not as the
  stream `World.pdl_idle` says.  A status of `CY_SCB_I2C_SUCCESS` (zero) is
  success.
* A buffer is the function from offsets (relative to the pointer passed in)
  to bytes.  The byte a successful `Cy_SCB_I2C_MasterReadByte` stores comes
  from the stream `World.rx`; a failing one is taken to leave the buffer as it
  was.
-/

namespace UsbI2c

/-- Success status `CY_SCB_I2C_SUCCESS` of the PDL I2C driver. -/
def CY_SCB_I2C_SUCCESS : Nat := 0

/-- Acknowledge command `cy_en_scb_i2c_command_t`. -/
inductive cy_en_scb_i2c_command_t where
  | CY_SCB_I2C_ACK
  | CY_SCB_I2C_NAK
  deriving DecidableEq, Repr

/-- Transfer direction `cy_en_scb_i2c_direction_t`. -/
inductive cy_en_scb_i2c_direction_t where
  | CY_SCB_I2C_WRITE_XFER
  | CY_SCB_I2C_READ_XFER
  deriving DecidableEq, Repr

open cy_en_scb_i2c_command_t cy_en_scb_i2c_direction_t

/-- Calls into the PDL (bus instance `SCB0`, timeout 0 and the context are
constant); `MasterReadByte` carries the offset of the byte it fills. -/
inductive Effect where
  | ClearMasterInterrupt
  | ClearTxFifo
  | MasterSendStart (dev_addr : Nat) (direction : cy_en_scb_i2c_direction_t)
  | MasterSendReStart (dev_addr : Nat) (direction : cy_en_scb_i2c_direction_t)
  | MasterWriteByte (byte : Nat)
  | MasterReadByte (ackNack : cy_en_scb_i2c_command_t) (offset : Nat)
  | MasterSendStop
  deriving DecidableEq, Repr

/-- State seen by `usb_i2c.c`: whether `I2C_context.state` is
`CY_SCB_I2C_IDLE`, the streams of the PDL, the number of status-returning PDL
calls made, and the trace. -/
structure World where
  idle : Bool
  pdl : Nat → Nat
  pdl_idle : Nat → Bool
  rx : Nat → Nat
  pdl_calls : Nat
  trace : List Effect

/-- A PDL call without return value: recorded only. -/
def pdl_void (e : Effect) (w : World) : World :=
  { w with trace := w.trace ++ [e] }

/-- A PDL call that returns a status. -/
def pdl_call (e : Effect) (w : World) : Nat × World :=
  (w.pdl w.pdl_calls,
   { w with idle := w.pdl_idle w.pdl_calls, pdl_calls := w.pdl_calls + 1,
            trace := w.trace ++ [e] })

/-- The loop of `cyi2c_master_write` (lines 118-127) with `size` bytes left,
the pointer at offset `off`, and the current `status`. -/
def write_bytes (data : Nat → Nat) : Nat → Nat → Nat → World → Nat × World
  | 0, _, status, w => (status, w)
  | size + 1, off, _, w =>
    let r := pdl_call (Effect.MasterWriteByte (data off)) w
    if r.1 ≠ CY_SCB_I2C_SUCCESS then r else write_bytes data size (off + 1) r.1 r.2

/-- Source `cyi2c_master_write` (lines 105-138). -/
def cyi2c_master_write (dev_addr : Nat) (data : Nat → Nat) (size : Nat) (send_stop : Bool)
    (w : World) : Nat × World :=
  let w1 := pdl_void Effect.ClearMasterInterrupt w
  let w2 := pdl_void Effect.ClearTxFifo w1
  let s :=
    if w2.idle then pdl_call (Effect.MasterSendStart dev_addr CY_SCB_I2C_WRITE_XFER) w2
    else pdl_call (Effect.MasterSendReStart dev_addr CY_SCB_I2C_WRITE_XFER) w2
  let b := if s.1 = CY_SCB_I2C_SUCCESS then write_bytes data size 0 s.1 s.2 else s
  let w3 := if send_stop then (pdl_call Effect.MasterSendStop b.2).2 else b.2
  (b.1, w3)

/-- The loop of `cyi2c_master_read` (lines 71-83) with `size` bytes left, the
pointer at offset `off`, the current `ack` command, the buffer and the
current `status`. -/
def read_bytes : Nat → Nat → cy_en_scb_i2c_command_t → (Nat → Nat) → Nat → World →
    Nat × (Nat → Nat) × World
  | 0, _, _, buf, status, w => (status, buf, w)
  | size + 1, off, ack, buf, _, w =>
    let ack1 := if size + 1 = 1 then CY_SCB_I2C_NAK else ack
    let r := pdl_call (Effect.MasterReadByte ack1 off) w
    if r.1 ≠ CY_SCB_I2C_SUCCESS then (r.1, buf, r.2)
    else read_bytes size (off + 1) ack1 (Function.update buf off (w.rx w.pdl_calls)) r.1 r.2

/-- Source `cyi2c_master_read` (lines 57-93): the status, the buffer and the
state afterwards. -/
def cyi2c_master_read (dev_addr : Nat) (data : Nat → Nat) (size : Nat) (send_stop : Bool)
    (w : World) : Nat × (Nat → Nat) × World :=
  let ack := CY_SCB_I2C_ACK
  let s :=
    if w.idle then pdl_call (Effect.MasterSendStart dev_addr CY_SCB_I2C_READ_XFER) w
    else pdl_call (Effect.MasterSendReStart dev_addr CY_SCB_I2C_READ_XFER) w
  let b : Nat × (Nat → Nat) × World :=
    if s.1 = CY_SCB_I2C_SUCCESS then read_bytes size 0 ack data s.1 s.2 else (s.1, data, s.2)
  let w3 := if send_stop then (pdl_call Effect.MasterSendStop b.2.2).2 else b.2.2
  (b.1, b.2.1, w3)

/-! ### Observations and sample inputs -/

/-- The start condition the driver sends for a state `w`. -/
def start_of (dev_addr : Nat) (direction : cy_en_scb_i2c_direction_t) (w : World) : Effect :=
  if w.idle then Effect.MasterSendStart dev_addr direction
  else Effect.MasterSendReStart dev_addr direction

/-- Trace of `m` byte writes taken from the buffer in order from offset `off`. -/
def byte_writes (data : Nat → Nat) : Nat → Nat → List Effect
  | _, 0 => []
  | off, m + 1 => Effect.MasterWriteByte (data off) :: byte_writes data (off + 1) m

/-- Trace of `m` byte reads acknowledged with ACK, filling offsets from `off`. -/
def ack_reads : Nat → Nat → List Effect
  | _, 0 => []
  | off, m + 1 => Effect.MasterReadByte CY_SCB_I2C_ACK off :: ack_reads (off + 1) m

/-- The stop condition, when requested. -/
def stop_of (send_stop : Bool) : List Effect :=
  if send_stop then [Effect.MasterSendStop] else []

/-- Idle bus on which every PDL call succeeds and the k-th call delivers the
byte `200 + k`. -/
def bus_ok : World :=
  { idle := true, pdl := fun _ => 0, pdl_idle := fun _ => false, rx := fun k => 200 + k,
    pdl_calls := 0, trace := [] }

/-- Idle bus on which the start and the first byte succeed and every later
call returns the status 6. -/
def bus_second_byte_fails : World :=
  { idle := true, pdl := fun k => if k < 2 then 0 else 6, pdl_idle := fun _ => false,
    rx := fun k => 200 + k, pdl_calls := 0, trace := [] }

/-- Buffer holding `10, 11, 12, ...`. -/
def sample_buffer : Nat → Nat := fun j => 10 + j

end UsbI2c

namespace PalI2c

open pal_status_t pal_i2c_event

variable {U : Type}

/-! ### Trace observations distribute over the append that records a call -/

theorem callbacks_append (l1 l2 : List Effect) :
    callbacks (l1 ++ l2) = callbacks l1 ++ callbacks l2 := by
  induction l1 with
  | nil => rfl
  | cons e t ih => cases e <;> simp [callbacks, ih]

theorem master_writes_append (l1 l2 : List Effect) :
    master_writes (l1 ++ l2) = master_writes l1 + master_writes l2 := by
  induction l1 with
  | nil => simp [master_writes]
  | cons e t ih => cases e <;> simp [master_writes, ih]; omega

theorem master_reads_append (l1 l2 : List Effect) :
    master_reads (l1 ++ l2) = master_reads l1 + master_reads l2 := by
  induction l1 with
  | nil => simp [master_reads]
  | cons e t ih => cases e <;> simp [master_reads, ih]; omega

/-! ### Step lemmas: each path of the source, as an explicit final state -/

theorem acquire_free (w : World U) (h : w.g_entry_count = 0) :
    pal_i2c_acquire w = (PAL_STATUS_SUCCESS, { w with g_entry_count := 1 }) := by
  simp [pal_i2c_acquire, h]

theorem acquire_held (w : World U) (h : w.g_entry_count ≠ 0) :
    pal_i2c_acquire w = (PAL_STATUS_FAILURE, w) := by
  simp [pal_i2c_acquire, h]

theorem loop_first (p_data : List Nat) (length : Nat) (w : World U)
    (h0 : w.bus w.bus_calls = 0) :
    pal_i2c_write_loop p_data length 3 none w =
      (some 0, { w with bus_calls := w.bus_calls + 1,
                        trace := w.trace ++ attempt p_data length }) := by
  simp [pal_i2c_write_loop, cyi2c_master_write, Cy_SysLib_DelayUs, attempt, h0]

theorem loop_second (p_data : List Nat) (length : Nat) (w : World U)
    (h0 : w.bus w.bus_calls ≠ 0) (h1 : w.bus (w.bus_calls + 1) = 0) :
    pal_i2c_write_loop p_data length 3 none w =
      (some 0, { w with bus_calls := w.bus_calls + 2,
                        trace := w.trace ++ (attempt p_data length ++ attempt p_data length) }) := by
  simp [pal_i2c_write_loop, cyi2c_master_write, Cy_SysLib_DelayUs, attempt, h0, h1]

theorem loop_third (p_data : List Nat) (length : Nat) (w : World U)
    (h0 : w.bus w.bus_calls ≠ 0) (h1 : w.bus (w.bus_calls + 1) ≠ 0) :
    pal_i2c_write_loop p_data length 3 none w =
      (some (w.bus (w.bus_calls + 2)),
       { w with bus_calls := w.bus_calls + 3,
                trace := w.trace ++ (attempt p_data length ++ attempt p_data length
                  ++ attempt p_data length) }) := by
  by_cases h2 : w.bus (w.bus_calls + 2) = 0 <;>
  simp [pal_i2c_write_loop, cyi2c_master_write, Cy_SysLib_DelayUs, attempt, h0, h1, h2]


theorem callbacks_attempts (p_data : List Nat) (length : Nat) (n : Nat) :
    callbacks (attempts p_data length n) = [] := by
  induction n with
  | zero => rfl
  | succ n ih => simp [attempts, attempt, callbacks, ih]

theorem master_writes_attempts (p_data : List Nat) (length : Nat) (n : Nat) :
    master_writes (attempts p_data length n) = n := by
  induction n with
  | zero => rfl
  | succ n ih => simp [attempts, attempt, master_writes, ih]

theorem write_first (ctx : pal_i2c_t U) (f : Nat → pal_i2c_event → U → U)
    (h : ctx.upper_layer_event_handler = some (upper_only f))
    (p_data : List Nat) (length : Nat) (w : World U) (hfree : w.g_entry_count = 0)
    (h0 : w.bus w.bus_calls = 0) :
    pal_i2c_write ctx p_data length w =
      some (PAL_STATUS_SUCCESS, write_done ctx f p_data length 1 PAL_I2C_EVENT_SUCCESS w) := by
  have hl := loop_first p_data length { w with g_entry_count := 1 } h0
  simp only [pal_i2c_write, acquire_free w hfree, hl]
  simp [call_upper_layer_event_handler, h, upper_only, pal_i2c_release, write_done, attempts]

theorem write_second (ctx : pal_i2c_t U) (f : Nat → pal_i2c_event → U → U)
    (h : ctx.upper_layer_event_handler = some (upper_only f))
    (p_data : List Nat) (length : Nat) (w : World U) (hfree : w.g_entry_count = 0)
    (h0 : w.bus w.bus_calls ≠ 0) (h1 : w.bus (w.bus_calls + 1) = 0) :
    pal_i2c_write ctx p_data length w =
      some (PAL_STATUS_SUCCESS, write_done ctx f p_data length 2 PAL_I2C_EVENT_SUCCESS w) := by
  have hl := loop_second p_data length { w with g_entry_count := 1 } h0 h1
  simp only [pal_i2c_write, acquire_free w hfree, hl]
  simp [call_upper_layer_event_handler, h, upper_only, pal_i2c_release, write_done, attempts]

theorem write_third (ctx : pal_i2c_t U) (f : Nat → pal_i2c_event → U → U)
    (h : ctx.upper_layer_event_handler = some (upper_only f))
    (p_data : List Nat) (length : Nat) (w : World U) (hfree : w.g_entry_count = 0)
    (h0 : w.bus w.bus_calls ≠ 0) (h1 : w.bus (w.bus_calls + 1) ≠ 0)
    (h2 : w.bus (w.bus_calls + 2) = 0) :
    pal_i2c_write ctx p_data length w =
      some (PAL_STATUS_SUCCESS, write_done ctx f p_data length 3 PAL_I2C_EVENT_SUCCESS w) := by
  have hl := loop_third p_data length { w with g_entry_count := 1 } h0 h1
  simp only [pal_i2c_write, acquire_free w hfree, hl]
  simp [call_upper_layer_event_handler, h, upper_only, pal_i2c_release, write_done, attempts, h2]

theorem write_all_fail (ctx : pal_i2c_t U) (f : Nat → pal_i2c_event → U → U)
    (h : ctx.upper_layer_event_handler = some (upper_only f))
    (p_data : List Nat) (length : Nat) (w : World U) (hfree : w.g_entry_count = 0)
    (h0 : w.bus w.bus_calls ≠ 0) (h1 : w.bus (w.bus_calls + 1) ≠ 0)
    (h2 : w.bus (w.bus_calls + 2) ≠ 0) :
    pal_i2c_write ctx p_data length w =
      some (PAL_STATUS_FAILURE, write_done ctx f p_data length 3 PAL_I2C_EVENT_ERROR w) := by
  have hl := loop_third p_data length { w with g_entry_count := 1 } h0 h1
  simp only [pal_i2c_write, acquire_free w hfree, hl]
  simp [call_upper_layer_event_handler, h, upper_only, pal_i2c_release, write_done, attempts, h2]

theorem write_held (ctx : pal_i2c_t U) (f : Nat → pal_i2c_event → U → U)
    (h : ctx.upper_layer_event_handler = some (upper_only f))
    (p_data : List Nat) (length : Nat) (w : World U) (hheld : w.g_entry_count ≠ 0) :
    pal_i2c_write ctx p_data length w =
      some (PAL_STATUS_I2C_BUSY,
        { w with trace := w.trace ++
                   [Effect.upper_layer_callback ctx.p_upper_layer_ctx PAL_I2C_EVENT_BUSY],
                 upper := f ctx.p_upper_layer_ctx PAL_I2C_EVENT_BUSY w.upper }) := by
  simp only [pal_i2c_write, acquire_held w hheld]
  simp [call_upper_layer_event_handler, h, upper_only]

/-- A granted write always ends in one of the four `write_done` states. -/
theorem write_granted_cases (ctx : pal_i2c_t U) (f : Nat → pal_i2c_event → U → U)
    (h : ctx.upper_layer_event_handler = some (upper_only f))
    (p_data : List Nat) (length : Nat) (w : World U) (hfree : w.g_entry_count = 0) :
    ∃ n st ev, 1 ≤ n ∧ n ≤ 3 ∧
      pal_i2c_write ctx p_data length w = some (st, write_done ctx f p_data length n ev w) ∧
      (∀ j, j + 1 < n → w.bus (w.bus_calls + j) ≠ 0) ∧
      ((st = PAL_STATUS_SUCCESS ∧ ev = PAL_I2C_EVENT_SUCCESS ∧ w.bus (w.bus_calls + (n - 1)) = 0) ∨
       (st = PAL_STATUS_FAILURE ∧ ev = PAL_I2C_EVENT_ERROR ∧ n = 3 ∧
         w.bus (w.bus_calls + 2) ≠ 0)) := by
  by_cases h0 : w.bus w.bus_calls = 0
  · exact ⟨1, _, _, by omega, by omega, write_first ctx f h p_data length w hfree h0,
      fun j hj => by omega, Or.inl ⟨rfl, rfl, by simpa using h0⟩⟩
  · by_cases h1 : w.bus (w.bus_calls + 1) = 0
    · refine ⟨2, _, _, by omega, by omega, write_second ctx f h p_data length w hfree h0 h1,
        fun j hj => ?_, Or.inl ⟨rfl, rfl, by simpa using h1⟩⟩
      have : j = 0 := by omega
      subst this; simpa using h0
    · have hpre : ∀ j, j + 1 < 3 → w.bus (w.bus_calls + j) ≠ 0 := by
        intro j hj
        have : j = 0 ∨ j = 1 := by omega
        rcases this with rfl | rfl
        · simpa using h0
        · exact h1
      by_cases h2 : w.bus (w.bus_calls + 2) = 0
      · exact ⟨3, _, _, by omega, by omega,
          write_third ctx f h p_data length w hfree h0 h1 h2, hpre, Or.inl ⟨rfl, rfl, h2⟩⟩
      · exact ⟨3, _, _, by omega, by omega,
          write_all_fail ctx f h p_data length w hfree h0 h1 h2, hpre,
          Or.inr ⟨rfl, rfl, rfl, h2⟩⟩


theorem read_ok (ctx : pal_i2c_t U) (f : Nat → pal_i2c_event → U → U)
    (h : ctx.upper_layer_event_handler = some (upper_only f))
    (p_data : List Nat) (length : Nat) (w : World U) (hfree : w.g_entry_count = 0)
    (h0 : w.bus w.bus_calls = 0) :
    pal_i2c_read ctx p_data length w =
      some (PAL_STATUS_SUCCESS,
        { g_entry_count := 0, bus := w.bus, bus_calls := w.bus_calls + 1,
          trace := w.trace ++ [Effect.master_read OPTIGA_FX_ADDR p_data length true,
            Effect.upper_layer_callback ctx.p_upper_layer_ctx PAL_I2C_EVENT_SUCCESS],
          upper := f ctx.p_upper_layer_ctx PAL_I2C_EVENT_SUCCESS w.upper }) := by
  simp only [pal_i2c_read, acquire_free w hfree]
  simp [cyi2c_master_read, call_upper_layer_event_handler, h, upper_only, pal_i2c_release, h0]

theorem read_fail (ctx : pal_i2c_t U) (f : Nat → pal_i2c_event → U → U)
    (h : ctx.upper_layer_event_handler = some (upper_only f))
    (p_data : List Nat) (length : Nat) (w : World U) (hfree : w.g_entry_count = 0)
    (h0 : w.bus w.bus_calls ≠ 0) :
    pal_i2c_read ctx p_data length w =
      some (PAL_STATUS_FAILURE,
        { g_entry_count := 0, bus := w.bus, bus_calls := w.bus_calls + 1,
          trace := w.trace ++ [Effect.master_read OPTIGA_FX_ADDR p_data length true,
            Effect.upper_layer_callback ctx.p_upper_layer_ctx PAL_I2C_EVENT_ERROR],
          upper := f ctx.p_upper_layer_ctx PAL_I2C_EVENT_ERROR w.upper }) := by
  simp only [pal_i2c_read, acquire_free w hfree]
  simp [cyi2c_master_read, call_upper_layer_event_handler, h, upper_only, pal_i2c_release, h0]

theorem read_held (ctx : pal_i2c_t U) (f : Nat → pal_i2c_event → U → U)
    (h : ctx.upper_layer_event_handler = some (upper_only f))
    (p_data : List Nat) (length : Nat) (w : World U) (hheld : w.g_entry_count ≠ 0) :
    pal_i2c_read ctx p_data length w =
      some (PAL_STATUS_I2C_BUSY,
        { g_entry_count := 0, bus := w.bus, bus_calls := w.bus_calls,
          trace := w.trace ++
            [Effect.upper_layer_callback ctx.p_upper_layer_ctx PAL_I2C_EVENT_BUSY],
          upper := f ctx.p_upper_layer_ctx PAL_I2C_EVENT_BUSY w.upper }) := by
  simp only [pal_i2c_read, acquire_held w hheld]
  simp [call_upper_layer_event_handler, h, upper_only, pal_i2c_release]

/-! ### Claims -/

/-- C1: with a handler registered in the context (one acting on the upper
layer's state), for every counter value and every driver outcome stream, one
`pal_i2c_write` and one `pal_i2c_read` each return, and each extends the
sequence of handler invocations by exactly one entry, addressed to the
context's `p_upper_layer_ctx`. -/
theorem pal_i2c_write_read_invoke_callback_once (ctx : pal_i2c_t U)
    (f : Nat → pal_i2c_event → U → U)
    (h : ctx.upper_layer_event_handler = some (upper_only f))
    (p_data : List Nat) (length : Nat) (w : World U) :
    (∃ st w1 ev, pal_i2c_write ctx p_data length w = some (st, w1) ∧
      callbacks w1.trace = callbacks w.trace ++ [(ctx.p_upper_layer_ctx, ev)]) ∧
    (∃ st w1 ev, pal_i2c_read ctx p_data length w = some (st, w1) ∧
      callbacks w1.trace = callbacks w.trace ++ [(ctx.p_upper_layer_ctx, ev)]) := by
  by_cases hg : w.g_entry_count = 0
  · constructor
    · obtain ⟨n, st, ev, _, _, hw, _, _⟩ := write_granted_cases ctx f h p_data length w hg
      exact ⟨st, _, ev, hw, by
        simp [write_done, callbacks_append, callbacks_attempts, callbacks]⟩
    · by_cases h0 : w.bus w.bus_calls = 0
      · exact ⟨_, _, PAL_I2C_EVENT_SUCCESS, read_ok ctx f h p_data length w hg h0, by
          simp [callbacks_append, callbacks]⟩
      · exact ⟨_, _, PAL_I2C_EVENT_ERROR, read_fail ctx f h p_data length w hg h0, by
          simp [callbacks_append, callbacks]⟩
  · exact ⟨⟨_, _, PAL_I2C_EVENT_BUSY, write_held ctx f h p_data length w hg, by
        simp [callbacks_append, callbacks]⟩,
      ⟨_, _, PAL_I2C_EVENT_BUSY, read_held ctx f h p_data length w hg, by
        simp [callbacks_append, callbacks]⟩⟩

/-- C1 at a concrete input: a write and a read on a held token. -/
theorem pal_i2c_write_read_invoke_callback_once_witness :
    sample_ctx.upper_layer_event_handler = some (upper_only log_event) ∧
    (∃ st w1 ev, pal_i2c_write sample_ctx [1, 2] 2 (sample_world 1 always_fail) = some (st, w1) ∧
      callbacks w1.trace = callbacks (sample_world 1 always_fail).trace ++
        [(sample_ctx.p_upper_layer_ctx, ev)]) ∧
    (∃ st w1 ev, pal_i2c_read sample_ctx [1, 2] 2 (sample_world 1 always_fail) = some (st, w1) ∧
      callbacks w1.trace = callbacks (sample_world 1 always_fail).trace ++
        [(sample_ctx.p_upper_layer_ctx, ev)]) :=
  ⟨rfl, pal_i2c_write_read_invoke_callback_once sample_ctx log_event rfl [1, 2] 2
    (sample_world 1 always_fail)⟩


/-- C2: a `pal_i2c_write` on a free token returns, and delivers exactly one
event to the handler: Success (with return value `PAL_STATUS_SUCCESS`) when
one of the three driver outcomes from the current position of the outcome
stream is zero, Error (with `PAL_STATUS_FAILURE`) when all three are nonzero. -/
theorem pal_i2c_write_granted_delivers_once (ctx : pal_i2c_t U)
    (f : Nat → pal_i2c_event → U → U)
    (h : ctx.upper_layer_event_handler = some (upper_only f))
    (p_data : List Nat) (length : Nat) (w : World U) (hfree : w.g_entry_count = 0) :
    ∃ st ev w1, pal_i2c_write ctx p_data length w = some (st, w1) ∧
      callbacks w1.trace = callbacks w.trace ++ [(ctx.p_upper_layer_ctx, ev)] ∧
      ((∃ j, j < 3 ∧ w.bus (w.bus_calls + j) = 0) →
        st = PAL_STATUS_SUCCESS ∧ ev = PAL_I2C_EVENT_SUCCESS) ∧
      ((∀ j, j < 3 → w.bus (w.bus_calls + j) ≠ 0) →
        st = PAL_STATUS_FAILURE ∧ ev = PAL_I2C_EVENT_ERROR) := by
  obtain ⟨n, st, ev, hn1, hn3, hw, hpre, hcase⟩ :=
    write_granted_cases ctx f h p_data length w hfree
  refine ⟨st, ev, _, hw, by
    simp [write_done, callbacks_append, callbacks_attempts, callbacks], ?_, ?_⟩
  · rintro ⟨j, hj, hz⟩
    rcases hcase with ⟨hst, hev, _⟩ | ⟨_, _, hn, h2⟩
    · exact ⟨hst, hev⟩
    · exfalso
      subst hn
      have hj3 : j + 1 < 3 ∨ j = 2 := by omega
      rcases hj3 with hlt | rfl
      · exact hpre j hlt hz
      · exact h2 hz
  · intro hall
    rcases hcase with ⟨_, _, hz⟩ | ⟨hst, hev, _, _⟩
    · exact absurd hz (hall (n - 1) (by omega))
    · exact ⟨hst, hev⟩

/-- C2 at concrete inputs: fail, fail, succeed gives one Success callback and
a Success return; fail, fail, fail gives one Error callback. -/
theorem pal_i2c_write_granted_delivers_once_witness :
    (∃ w1, pal_i2c_write sample_ctx [1, 2] 2 (sample_world 0 fail_fail_ok) =
        some (PAL_STATUS_SUCCESS, w1) ∧
      callbacks w1.trace = [(7, PAL_I2C_EVENT_SUCCESS)]) ∧
    (∃ w1, pal_i2c_write sample_ctx [1, 2] 2 (sample_world 0 always_fail) =
        some (PAL_STATUS_FAILURE, w1) ∧
      callbacks w1.trace = [(7, PAL_I2C_EVENT_ERROR)]) := by
  constructor
  · obtain ⟨st, ev, w1, hw, hc, hs, _⟩ :=
      pal_i2c_write_granted_delivers_once sample_ctx log_event rfl [1, 2] 2
        (sample_world 0 fail_fail_ok) rfl
    obtain ⟨hst, hev⟩ := hs ⟨2, by decide, by decide⟩
    subst hst hev
    exact ⟨w1, hw, hc⟩
  · obtain ⟨st, ev, w1, hw, hc, _, hf⟩ :=
      pal_i2c_write_granted_delivers_once sample_ctx log_event rfl [1, 2] 2
        (sample_world 0 always_fail) rfl
    obtain ⟨hst, hev⟩ := hf (fun _ _ => Nat.succ_ne_zero 1)
    subst hst hev
    exact ⟨w1, hw, hc⟩

/-- C3: a `pal_i2c_write` on a free token makes `p` driver calls when the
first zero outcome is at position `p` (1-based, `p ≤ 3`) and 3 calls when the
first three outcomes are all nonzero; the calls consume consecutive positions
of the outcome stream and there are never more than three. -/
theorem pal_i2c_write_attempt_count (ctx : pal_i2c_t U)
    (f : Nat → pal_i2c_event → U → U)
    (h : ctx.upper_layer_event_handler = some (upper_only f))
    (p_data : List Nat) (length : Nat) (w : World U) (hfree : w.g_entry_count = 0) :
    ∃ st w1, pal_i2c_write ctx p_data length w = some (st, w1) ∧
      (∀ p, 1 ≤ p → p ≤ 3 → (∀ j, j + 1 < p → w.bus (w.bus_calls + j) ≠ 0) →
        w.bus (w.bus_calls + (p - 1)) = 0 →
        master_writes w1.trace = master_writes w.trace + p) ∧
      ((∀ j, j < 3 → w.bus (w.bus_calls + j) ≠ 0) →
        master_writes w1.trace = master_writes w.trace + 3) ∧
      master_writes w1.trace ≤ master_writes w.trace + 3 ∧
      w1.bus_calls + master_writes w.trace = w.bus_calls + master_writes w1.trace := by
  obtain ⟨n, st, ev, hn1, hn3, hw, hpre, hcase⟩ :=
    write_granted_cases ctx f h p_data length w hfree
  have hcount : master_writes (write_done ctx f p_data length n ev w).trace =
      master_writes w.trace + n := by
    simp [write_done, master_writes_append, master_writes_attempts, master_writes]
  refine ⟨st, _, hw, ?_, ?_, ?_, ?_⟩
  · intro p hp1 hp3 hbefore hz
    rw [hcount]
    have hpn : p = n := by
      rcases Nat.lt_trichotomy p n with hlt | heq | hgt
      · exact absurd hz (by
          have := hpre (p - 1) (by omega)
          exact this)
      · exact heq
      · rcases hcase with ⟨_, _, hzn⟩ | ⟨_, _, hn, _⟩
        · exact absurd hzn (hbefore (n - 1) (by omega))
        · omega
    rw [hpn]
  · intro hall
    rw [hcount]
    rcases hcase with ⟨_, _, hzn⟩ | ⟨_, _, hn, _⟩
    · exact absurd hzn (hall (n - 1) (by omega))
    · rw [hn]
  · rw [hcount]; omega
  · rw [hcount]; simp [write_done]; omega

/-- C3 at a concrete input: with outcomes fail, fail, succeed the driver is
called three times. -/
theorem pal_i2c_write_attempt_count_witness :
    ∃ st w1, pal_i2c_write sample_ctx [1, 2] 2 (sample_world 0 fail_fail_ok) = some (st, w1) ∧
      master_writes w1.trace = 3 := by
  obtain ⟨st, w1, hw, hp, _, _, _⟩ :=
    pal_i2c_write_attempt_count sample_ctx log_event rfl [1, 2] 2
      (sample_world 0 fail_fail_ok) rfl
  have h3 := hp 3 (by decide) (by decide)
    (fun j hj => by
      have : j = 0 ∨ j = 1 := by omega
      rcases this with rfl | rfl <;> decide)
    (by decide)
  exact ⟨st, w1, hw, by simpa [sample_world, master_writes] using h3⟩

/-- C4: a `pal_i2c_write` on a held token (nonzero counter) returns
`PAL_STATUS_I2C_BUSY`; the only external call it makes is the handler
invocation with the Busy event, so the driver is not called, and the counter
is left as it was. -/
theorem pal_i2c_write_busy_no_transaction (ctx : pal_i2c_t U)
    (f : Nat → pal_i2c_event → U → U)
    (h : ctx.upper_layer_event_handler = some (upper_only f))
    (p_data : List Nat) (length : Nat) (w : World U) (hheld : w.g_entry_count ≠ 0) :
    ∃ w1, pal_i2c_write ctx p_data length w = some (PAL_STATUS_I2C_BUSY, w1) ∧
      w1.trace = w.trace ++
        [Effect.upper_layer_callback ctx.p_upper_layer_ctx PAL_I2C_EVENT_BUSY] ∧
      master_writes w1.trace = master_writes w.trace ∧
      w1.bus_calls = w.bus_calls ∧
      w1.g_entry_count = w.g_entry_count :=
  ⟨_, write_held ctx f h p_data length w hheld, rfl, by
    simp [master_writes_append, master_writes], rfl, rfl⟩

/-- C4 at a concrete input: a write while the token is held. -/
theorem pal_i2c_write_busy_no_transaction_witness :
    ∃ w1, pal_i2c_write sample_ctx [1, 2] 2 (sample_world 1 always_ok) =
        some (PAL_STATUS_I2C_BUSY, w1) ∧
      w1.trace = [Effect.upper_layer_callback 7 PAL_I2C_EVENT_BUSY] ∧
      master_writes w1.trace = 0 := by
  obtain ⟨w1, hw, ht, hm, _, _⟩ :=
    pal_i2c_write_busy_no_transaction sample_ctx log_event rfl [1, 2] 2
      (sample_world 1 always_ok) (by decide)
  exact ⟨w1, hw, ht, hm⟩

/-- C5: for every counter value and driver outcome stream, `pal_i2c_write`
returns `PAL_STATUS_SUCCESS` exactly when the one event it delivered is
Success, `PAL_STATUS_FAILURE` when it is Error and `PAL_STATUS_I2C_BUSY` when
it is Busy. -/
theorem pal_i2c_write_status_matches_event (ctx : pal_i2c_t U)
    (f : Nat → pal_i2c_event → U → U)
    (h : ctx.upper_layer_event_handler = some (upper_only f))
    (p_data : List Nat) (length : Nat) (w : World U) :
    ∃ st ev w1, pal_i2c_write ctx p_data length w = some (st, w1) ∧
      callbacks w1.trace = callbacks w.trace ++ [(ctx.p_upper_layer_ctx, ev)] ∧
      (st = PAL_STATUS_SUCCESS ↔ ev = PAL_I2C_EVENT_SUCCESS) ∧
      (ev = PAL_I2C_EVENT_ERROR → st = PAL_STATUS_FAILURE) ∧
      (ev = PAL_I2C_EVENT_BUSY → st = PAL_STATUS_I2C_BUSY) := by
  by_cases hg : w.g_entry_count = 0
  · obtain ⟨n, st, ev, _, _, hw, _, hcase⟩ := write_granted_cases ctx f h p_data length w hg
    refine ⟨st, ev, _, hw, by
      simp [write_done, callbacks_append, callbacks_attempts, callbacks], ?_⟩
    rcases hcase with ⟨hst, hev, _⟩ | ⟨hst, hev, _, _⟩ <;> subst hst hev <;> simp
  · exact ⟨_, PAL_I2C_EVENT_BUSY, _, write_held ctx f h p_data length w hg, by
      simp [callbacks_append, callbacks], by simp, by simp, by simp⟩

/-- C5 at a concrete input: three failing attempts. -/
theorem pal_i2c_write_status_matches_event_witness :
    ∃ st ev w1, pal_i2c_write sample_ctx [1, 2] 2 (sample_world 0 always_fail) = some (st, w1) ∧
      callbacks w1.trace = [(7, ev)] ∧
      (st = PAL_STATUS_SUCCESS ↔ ev = PAL_I2C_EVENT_SUCCESS) := by
  obtain ⟨st, ev, w1, hw, hc, hiff, _, _⟩ :=
    pal_i2c_write_status_matches_event sample_ctx log_event rfl [1, 2] 2
      (sample_world 0 always_fail)
  exact ⟨st, ev, w1, hw, hc, hiff⟩

/-- C6: a `pal_i2c_read` on a free token makes exactly one
`cyi2c_master_read` call; a nonzero outcome gives the Error event and
`PAL_STATUS_FAILURE`, a zero outcome the Success event and
`PAL_STATUS_SUCCESS`.  On a held token it makes no driver call, delivers Busy
and returns `PAL_STATUS_I2C_BUSY`. -/
theorem pal_i2c_read_single_transaction (ctx : pal_i2c_t U)
    (f : Nat → pal_i2c_event → U → U)
    (h : ctx.upper_layer_event_handler = some (upper_only f))
    (p_data : List Nat) (length : Nat) (w : World U) :
    (w.g_entry_count = 0 →
      ∃ st ev w1, pal_i2c_read ctx p_data length w = some (st, w1) ∧
        w1.trace = w.trace ++ [Effect.master_read OPTIGA_FX_ADDR p_data length true,
          Effect.upper_layer_callback ctx.p_upper_layer_ctx ev] ∧
        master_reads w1.trace = master_reads w.trace + 1 ∧
        w1.bus_calls = w.bus_calls + 1 ∧
        (w.bus w.bus_calls ≠ 0 → st = PAL_STATUS_FAILURE ∧ ev = PAL_I2C_EVENT_ERROR) ∧
        (w.bus w.bus_calls = 0 → st = PAL_STATUS_SUCCESS ∧ ev = PAL_I2C_EVENT_SUCCESS)) ∧
    (w.g_entry_count ≠ 0 →
      ∃ w1, pal_i2c_read ctx p_data length w = some (PAL_STATUS_I2C_BUSY, w1) ∧
        w1.trace = w.trace ++
          [Effect.upper_layer_callback ctx.p_upper_layer_ctx PAL_I2C_EVENT_BUSY] ∧
        master_reads w1.trace = master_reads w.trace ∧
        w1.bus_calls = w.bus_calls) := by
  constructor
  · intro hg
    by_cases h0 : w.bus w.bus_calls = 0
    · exact ⟨_, PAL_I2C_EVENT_SUCCESS, _, read_ok ctx f h p_data length w hg h0, rfl, by
        simp [master_reads_append, master_reads], rfl, fun hne => absurd h0 hne,
        fun _ => ⟨rfl, rfl⟩⟩
    · exact ⟨_, PAL_I2C_EVENT_ERROR, _, read_fail ctx f h p_data length w hg h0, rfl, by
        simp [master_reads_append, master_reads], rfl, fun _ => ⟨rfl, rfl⟩,
        fun hz => absurd hz h0⟩
  · intro hg
    exact ⟨_, read_held ctx f h p_data length w hg, rfl, by
      simp [master_reads_append, master_reads], rfl⟩

/-- C6 at concrete inputs: a granted read whose single attempt fails, and a
denied read. -/
theorem pal_i2c_read_single_transaction_witness :
    (∃ w1, pal_i2c_read sample_ctx [0, 0] 2 (sample_world 0 always_fail) =
        some (PAL_STATUS_FAILURE, w1) ∧
      w1.trace = [Effect.master_read OPTIGA_FX_ADDR [0, 0] 2 true,
        Effect.upper_layer_callback 7 PAL_I2C_EVENT_ERROR]) ∧
    (∃ w1, pal_i2c_read sample_ctx [0, 0] 2 (sample_world 1 always_fail) =
        some (PAL_STATUS_I2C_BUSY, w1) ∧
      w1.trace = [Effect.upper_layer_callback 7 PAL_I2C_EVENT_BUSY]) := by
  constructor
  · obtain ⟨st, ev, w1, hr, ht, _, _, hfail, _⟩ :=
      (pal_i2c_read_single_transaction sample_ctx log_event rfl [0, 0] 2
        (sample_world 0 always_fail)).1 rfl
    obtain ⟨hst, hev⟩ := hfail (by decide)
    subst hst hev
    exact ⟨w1, hr, ht⟩
  · obtain ⟨w1, hr, ht, _, _⟩ :=
      (pal_i2c_read_single_transaction sample_ctx log_event rfl [0, 0] 2
        (sample_world 1 always_fail)).2 (by decide)
    exact ⟨w1, hr, ht⟩

/-- C7: with any handler registered (also one that changes the transport's
state), `pal_i2c_read` returns with `g_entry_count = 0` from every initial
counter value and for every driver outcome, the Busy path included. -/
theorem pal_i2c_read_leaves_token_free (ctx : pal_i2c_t U)
    (handler : upper_layer_callback_t U)
    (h : ctx.upper_layer_event_handler = some handler)
    (p_data : List Nat) (length : Nat) (w : World U) :
    ∃ st w1, pal_i2c_read ctx p_data length w = some (st, w1) ∧ w1.g_entry_count = 0 := by
  by_cases hg : w.g_entry_count = 0
  · by_cases h0 : w.bus w.bus_calls = 0
    · simp only [pal_i2c_read, acquire_free w hg]
      simp only [cyi2c_master_read, call_upper_layer_event_handler, h, pal_i2c_release, h0,
        ne_eq, not_true_eq_false, if_true, if_false, Option.map_some']
      exact ⟨_, _, rfl, rfl⟩
    · simp only [pal_i2c_read, acquire_free w hg]
      simp only [cyi2c_master_read, call_upper_layer_event_handler, h, pal_i2c_release, h0,
        ne_eq, not_false_eq_true, if_true, if_false, Option.map_some']
      exact ⟨_, _, rfl, rfl⟩
  · simp only [pal_i2c_read, acquire_held w hg]
    simp only [call_upper_layer_event_handler, h, pal_i2c_release,
      reduceCtorEq, if_false, Option.map_some']
    exact ⟨_, _, rfl, rfl⟩

/-- C7 at a concrete input: a read on a held token returns Busy and leaves the
counter at zero. -/
theorem pal_i2c_read_leaves_token_free_witness :
    (sample_world 1 always_ok).g_entry_count = 1 ∧
    ∃ st w1, pal_i2c_read sample_ctx [0, 0] 2 (sample_world 1 always_ok) = some (st, w1) ∧
      w1.g_entry_count = 0 :=
  ⟨rfl, pal_i2c_read_leaves_token_free sample_ctx (upper_only log_event) rfl [0, 0] 2
    (sample_world 1 always_ok)⟩

/-- C8: `pal_i2c_acquire` returns `PAL_STATUS_SUCCESS` exactly when the
counter is zero on entry; a grant leaves the counter nonzero; every other
outcome is `PAL_STATUS_FAILURE` with the state unchanged; and an acquire on
the state left by a grant is denied. -/
theorem pal_i2c_acquire_granted_iff_free (w : World U) :
    ((pal_i2c_acquire w).1 = PAL_STATUS_SUCCESS ↔ w.g_entry_count = 0) ∧
    ((pal_i2c_acquire w).1 = PAL_STATUS_SUCCESS → (pal_i2c_acquire w).2.g_entry_count ≠ 0) ∧
    ((pal_i2c_acquire w).1 ≠ PAL_STATUS_SUCCESS →
      (pal_i2c_acquire w).1 = PAL_STATUS_FAILURE ∧ (pal_i2c_acquire w).2 = w) ∧
    ((pal_i2c_acquire w).1 = PAL_STATUS_SUCCESS →
      (pal_i2c_acquire (pal_i2c_acquire w).2).1 = PAL_STATUS_FAILURE ∧
      (pal_i2c_acquire (pal_i2c_acquire w).2).2 = (pal_i2c_acquire w).2) := by
  by_cases hg : w.g_entry_count = 0
  · have hheld : ({ w with g_entry_count := 1 } : World U).g_entry_count ≠ 0 := by simp
    rw [acquire_free w hg]
    simp [hg, acquire_held _ hheld]
  · rw [acquire_held w hg]
    simp [hg]

/-- C8 at a concrete input: the first acquire on a free token is granted, the
second is denied. -/
theorem pal_i2c_acquire_granted_iff_free_witness :
    (pal_i2c_acquire (sample_world 0 always_ok)).1 = PAL_STATUS_SUCCESS ∧
    (pal_i2c_acquire (pal_i2c_acquire (sample_world 0 always_ok)).2).1 = PAL_STATUS_FAILURE :=
  have hgrant := (pal_i2c_acquire_granted_iff_free (sample_world 0 always_ok)).1.mpr rfl
  ⟨hgrant, ((pal_i2c_acquire_granted_iff_free (sample_world 0 always_ok)).2.2.2 hgrant).1⟩

/-- C9: `pal_i2c_release` sets the counter to zero from every state, a second
release changes nothing, and an acquire right after a release is granted. -/
theorem pal_i2c_release_idempotent (w : World U) :
    (pal_i2c_release w).g_entry_count = 0 ∧
    pal_i2c_release (pal_i2c_release w) = pal_i2c_release w ∧
    (pal_i2c_acquire (pal_i2c_release w)).1 = PAL_STATUS_SUCCESS := by
  refine ⟨rfl, rfl, ?_⟩
  rw [acquire_free (pal_i2c_release w) rfl]

/-- C10: starting from a free token, any finite run of `pal_i2c_write` calls
(handler acting on the upper layer only, any driver outcomes) returns; in it
every call's acquire is granted, no call returns Busy, the counter is zero
when each call returns, and no Busy event is delivered. -/
theorem pal_i2c_write_seq_no_lock_leak (ctx : pal_i2c_t U)
    (f : Nat → pal_i2c_event → U → U)
    (h : ctx.upper_layer_event_handler = some (upper_only f))
    (reqs : List (List Nat × Nat)) (w : World U) (hfree : w.g_entry_count = 0) :
    ∃ obs w1 t, pal_i2c_write_seq ctx reqs w = some (obs, w1) ∧
      obs.length = reqs.length ∧
      (∀ o, o ∈ obs → o.acquire = PAL_STATUS_SUCCESS ∧ o.status ≠ PAL_STATUS_I2C_BUSY ∧
        o.token_after = 0) ∧
      w1.g_entry_count = 0 ∧
      w1.trace = w.trace ++ t ∧
      (∀ c, (c, PAL_I2C_EVENT_BUSY) ∉ callbacks t) := by
  induction reqs generalizing w with
  | nil => exact ⟨[], w, [], rfl, rfl, by simp, hfree, by simp, by simp [callbacks]⟩
  | cons req rest ih =>
    obtain ⟨n, st, ev, _, _, hw, _, hcase⟩ := write_granted_cases ctx f h req.1 req.2 w hfree
    obtain ⟨obs, w2, t, hseq, hlen, hobs, hg2, ht, hnb⟩ :=
      ih (write_done ctx f req.1 req.2 n ev w) rfl
    have hst : st ≠ PAL_STATUS_I2C_BUSY ∧ ev ≠ PAL_I2C_EVENT_BUSY := by
      rcases hcase with ⟨hs, he, _⟩ | ⟨hs, he, _, _⟩ <;> subst hs he <;> simp
    refine ⟨WriteObs.mk (pal_i2c_acquire w).1 st
        (write_done ctx f req.1 req.2 n ev w).g_entry_count :: obs,
      w2, attempts req.1 req.2 n ++
        [Effect.upper_layer_callback ctx.p_upper_layer_ctx ev] ++ t, ?_, ?_, ?_, hg2, ?_, ?_⟩
    · simp only [pal_i2c_write_seq, hw, hseq]
    · simp [hlen]
    · intro o ho
      rcases List.mem_cons.mp ho with rfl | ho
      · exact ⟨by rw [acquire_free w hfree], hst.1, rfl⟩
      · exact hobs o ho
    · rw [ht]; simp [write_done]
    · intro c hc
      simp only [callbacks_append, callbacks_attempts, callbacks, List.nil_append,
        List.cons_append, List.mem_cons, Prod.mk.injEq] at hc
      rcases hc with ⟨_, he⟩ | hc
      · exact hst.2 he.symm
      · exact hnb c hc

/-- C10 at a concrete input: three writes in a row while the driver fails its
first two calls. -/
theorem pal_i2c_write_seq_no_lock_leak_witness :
    ∃ obs w1, pal_i2c_write_seq sample_ctx [([1], 1), ([2, 3], 2), ([], 0)]
        (sample_world 0 fail_fail_ok) = some (obs, w1) ∧
      obs.length = 3 ∧
      (∀ o, o ∈ obs → o.acquire = PAL_STATUS_SUCCESS ∧ o.status ≠ PAL_STATUS_I2C_BUSY ∧
        o.token_after = 0) ∧
      w1.g_entry_count = 0 := by
  obtain ⟨obs, w1, t, hseq, hlen, hobs, hg, _, _⟩ :=
    pal_i2c_write_seq_no_lock_leak sample_ctx log_event rfl [([1], 1), ([2, 3], 2), ([], 0)]
      (sample_world 0 fail_fail_ok) rfl
  exact ⟨obs, w1, hseq, hlen, hobs, hg⟩

/-- C11 (the code at the failing input): while the token is held by another
caller (`g_entry_count = 1`), a `pal_i2c_read` returns Busy and leaves the
counter at zero, so that the `pal_i2c_write` issued next is granted: it makes
a driver call and returns `PAL_STATUS_SUCCESS` although the holder has not
released. -/
theorem pal_i2c_read_busy_releases_foreign_token :
    ∃ w1 w2,
      (sample_world 1 always_ok).g_entry_count = 1 ∧
      pal_i2c_read sample_ctx [0, 0] 2 (sample_world 1 always_ok) =
        some (PAL_STATUS_I2C_BUSY, w1) ∧
      w1.g_entry_count = 0 ∧
      pal_i2c_write sample_ctx [1, 2] 2 w1 = some (PAL_STATUS_SUCCESS, w2) ∧
      w2.trace = [Effect.upper_layer_callback 7 PAL_I2C_EVENT_BUSY,
        Effect.master_write OPTIGA_FX_ADDR [1, 2] 2 true, Effect.delay_us 100,
        Effect.upper_layer_callback 7 PAL_I2C_EVENT_SUCCESS] :=
  ⟨_, _, rfl, read_held sample_ctx log_event rfl [0, 0] 2 (sample_world 1 always_ok) (by decide),
    rfl, write_first sample_ctx log_event rfl [1, 2] 2 _ rfl rfl, rfl⟩

/-- C12 (as stated, at a concrete input): `pal_i2c_init` returns without
having added a handler invocation, so it does not resolve via exactly one
callback. -/
theorem pal_i2c_init_one_callback_counterexample :
    ¬ ∃ st w1 ev, pal_i2c_init sample_ctx I2C_DATARATE (sample_world 0 always_ok) = some (st, w1) ∧
      callbacks w1.trace = callbacks (sample_world 0 always_ok).trace ++
        [(sample_ctx.p_upper_layer_ctx, ev)] := by
  rintro ⟨st, w1, ev, hinit, hcb⟩
  simp only [pal_i2c_init, Cy_USB_I2CInit, I2C_DATARATE] at hinit
  simp at hinit
  obtain ⟨_, hw⟩ := hinit
  subst hw
  simp [sample_world, callbacks] at hcb

/-- C12 (amended): `pal_i2c_init`, `pal_i2c_deinit` and `pal_i2c_set_bitrate`
invoke no handler, whatever the context holds.  `pal_i2c_init` returns
`PAL_STATUS_SUCCESS` after `Cy_USB_I2CInit` when the data rate is reachable
(and does not return otherwise); `pal_i2c_deinit` and `pal_i2c_set_bitrate`
return `PAL_STATUS_SUCCESS` and change nothing. -/
theorem pal_i2c_init_deinit_set_bitrate_no_callback (ctx : pal_i2c_t U)
    (dataRate bitrate : Nat) (w : World U) :
    (0 < dataRate → dataRate ≤ I2C_DATARATE →
      ∃ w1, pal_i2c_init ctx dataRate w = some (PAL_STATUS_SUCCESS, w1) ∧
        w1.trace = w.trace ++ [Effect.usb_i2c_init] ∧
        callbacks w1.trace = callbacks w.trace ∧
        w1.g_entry_count = w.g_entry_count ∧ w1.upper = w.upper) ∧
    ((dataRate = 0 ∨ I2C_DATARATE < dataRate) → pal_i2c_init ctx dataRate w = none) ∧
    pal_i2c_deinit ctx w = (PAL_STATUS_SUCCESS, w) ∧
    pal_i2c_set_bitrate ctx bitrate w = (PAL_STATUS_SUCCESS, w) := by
  refine ⟨?_, ?_, rfl, rfl⟩
  · intro hpos hle
    have hcond : ¬ (dataRate > I2C_DATARATE ∨ dataRate = 0) := by omega
    refine ⟨{ w with trace := w.trace ++ [Effect.usb_i2c_init] }, ?_, rfl, ?_, rfl, rfl⟩
    · simp only [pal_i2c_init, Cy_USB_I2CInit, if_neg hcond, Option.map_some']
    · simp [callbacks_append, callbacks]
  · intro hbad
    have hcond : dataRate > I2C_DATARATE ∨ dataRate = 0 := by omega
    simp only [pal_i2c_init, Cy_USB_I2CInit, if_pos hcond, Option.map_none']

/-- C12 (amended) at a concrete input: the three entry points on a context
with a handler registered; none of them invokes it. -/
theorem pal_i2c_init_deinit_set_bitrate_no_callback_witness :
    (∃ w1, pal_i2c_init sample_ctx 100000 (sample_world 0 always_ok) =
        some (PAL_STATUS_SUCCESS, w1) ∧ callbacks w1.trace = []) ∧
    pal_i2c_deinit sample_ctx (sample_world 0 always_ok) =
      (PAL_STATUS_SUCCESS, sample_world 0 always_ok) ∧
    pal_i2c_set_bitrate sample_ctx 400 (sample_world 0 always_ok) =
      (PAL_STATUS_SUCCESS, sample_world 0 always_ok) := by
  obtain ⟨hinit, _, hde, hsb⟩ :=
    pal_i2c_init_deinit_set_bitrate_no_callback sample_ctx 100000 400
      (sample_world 0 always_ok)
  obtain ⟨w1, hw, _, hcb, _, _⟩ := hinit (by decide) (by decide)
  exact ⟨⟨w1, hw, hcb⟩, hde, hsb⟩

/-- C13: with the token free, a handler that publishes its event to
`optiga_lib_status` as `optiga_lib_callback` does, and a first driver attempt
that succeeds, `pal_i2c_write` returns `PAL_STATUS_SUCCESS` after one driver
call and one handler invocation with Success, and leaves `optiga_lib_status`
equal to `OPTIGA_LIB_SUCCESS`; the `WAIT_AND_CHECK_STATUS` that follows then
exits with zero iterations of its wait loop and `return_status` unchanged
(and without `break` when `return_status` is `OPTIGA_LIB_SUCCESS`).  The
library's macro values enter through `K`: the Success event has the value
`OPTIGA_LIB_SUCCESS`, which differs from `OPTIGA_LIB_BUSY`. -/
theorem pal_i2c_write_end_to_end_bridge (K : lib_status_codes)
    (hS : K.event_code PAL_I2C_EVENT_SUCCESS = K.OPTIGA_LIB_SUCCESS)
    (hB : K.OPTIGA_LIB_BUSY ≠ K.OPTIGA_LIB_SUCCESS)
    (ctx : pal_i2c_t Nat)
    (h : ctx.upper_layer_event_handler = some (upper_only (optiga_lib_callback K)))
    (p_data : List Nat) (length : Nat) (w : World Nat) (hfree : w.g_entry_count = 0)
    (h0 : w.bus w.bus_calls = 0) :
    ∃ w1, pal_i2c_write ctx p_data length w = some (PAL_STATUS_SUCCESS, w1) ∧
      callbacks w1.trace =
        callbacks w.trace ++ [(ctx.p_upper_layer_ctx, PAL_I2C_EVENT_SUCCESS)] ∧
      master_writes w1.trace = master_writes w.trace + 1 ∧
      w1.upper = K.OPTIGA_LIB_SUCCESS ∧
      ∀ fuel return_status, ∃ o,
        WAIT_AND_CHECK_STATUS K (fuel + 1) return_status w1.upper = some o ∧
        o.return_status = return_status ∧ o.iterations = 0 ∧
        (return_status = K.OPTIGA_LIB_SUCCESS → o.break_taken = false) := by
  refine ⟨_, write_first ctx (optiga_lib_callback K) h p_data length w hfree h0, ?_, ?_, ?_, ?_⟩
  · simp [write_done, callbacks_append, callbacks_attempts, callbacks]
  · simp [write_done, master_writes_append, master_writes_attempts, master_writes]
  · simp [write_done, optiga_lib_callback, hS]
  · intro fuel return_status
    have hup : (write_done ctx (optiga_lib_callback K) p_data length 1
        PAL_I2C_EVENT_SUCCESS w).upper = K.OPTIGA_LIB_SUCCESS := by
      simp [write_done, optiga_lib_callback, hS]
    rw [hup]
    by_cases hr : K.OPTIGA_LIB_SUCCESS = return_status
    · subst hr
      refine ⟨{ return_status := K.OPTIGA_LIB_SUCCESS, break_taken := false, iterations := 0 },
        ?_, rfl, rfl, fun _ => rfl⟩
      simp [WAIT_AND_CHECK_STATUS, wait_while_busy, hB]
    · refine ⟨{ return_status := return_status, break_taken := true, iterations := 0 },
        ?_, rfl, rfl, fun hrs => absurd hrs.symm hr⟩
      simp [WAIT_AND_CHECK_STATUS, hr]

/-- C13 at the scenario of the specification, with the host library's macro
values: `optiga_lib_status` holds the Busy sentinel, the buffer has 8 bytes,
the driver succeeds at once. -/
theorem pal_i2c_write_end_to_end_bridge_witness :
    (app_world host_library_codes).upper = host_library_codes.OPTIGA_LIB_BUSY ∧
    ∃ w1, pal_i2c_write (app_ctx host_library_codes) [1, 2, 3, 4, 5, 6, 7, 8] 8
        (app_world host_library_codes) = some (PAL_STATUS_SUCCESS, w1) ∧
      callbacks w1.trace = [(0, PAL_I2C_EVENT_SUCCESS)] ∧
      w1.upper = host_library_codes.OPTIGA_LIB_SUCCESS ∧
      WAIT_AND_CHECK_STATUS host_library_codes 1 host_library_codes.OPTIGA_LIB_SUCCESS
        w1.upper = some { return_status := host_library_codes.OPTIGA_LIB_SUCCESS,
                          break_taken := false, iterations := 0 } := by
  obtain ⟨w1, hw, hcb, _, hup, hwait⟩ :=
    pal_i2c_write_end_to_end_bridge host_library_codes rfl (by decide)
      (app_ctx host_library_codes) rfl [1, 2, 3, 4, 5, 6, 7, 8] 8
      (app_world host_library_codes) rfl rfl
  refine ⟨rfl, w1, hw, hcb, hup, ?_⟩
  rw [hup]
  rfl

end PalI2c

namespace PalOsEvent

variable {U : Type}

/-! ### Trace observations and step lemmas of the event timer -/

theorem timer_creates_append (l1 l2 : List Effect) :
    timer_creates (l1 ++ l2) = timer_creates l1 + timer_creates l2 := by
  induction l1 with
  | nil => simp [timer_creates]
  | cons e t ih => cases e <;> simp [timer_creates, ih]; omega

theorem timer_starts_append (l1 l2 : List Effect) :
    timer_starts (l1 ++ l2) = timer_starts l1 + timer_starts l2 := by
  induction l1 with
  | nil => simp [timer_starts]
  | cons e t ih => cases e <;> simp [timer_starts, ih]; omega

theorem invocations_append (l1 l2 : List Effect) :
    invocations (l1 ++ l2) = invocations l1 ++ invocations l2 := by
  induction l1 with
  | nil => rfl
  | cons e t ih => cases e <;> simp [invocations, ih]

/-- A registration that finds no timer: the slot is written, the timer is
created with the converted period and started. -/
theorem register_creates (p cb args time_us : Nat) (w : World U)
    (h : w.timer_created = false) :
    pal_os_event_register_callback_oneshot p cb args time_us w =
      { events := Function.update w.events p
          { is_event_triggered := (w.events p).is_event_triggered,
            callback_registered := cb, callback_ctx := args },
        fx_optiga_timer := w.rtos w.rtos_calls,
        timer_created := true,
        rtos := w.rtos,
        rtos_calls := w.rtos_calls + 2,
        trace := w.trace ++
          [Effect.xTimerCreate (if time_us < 1000 then 1 else time_us / 1000) false p,
           Effect.xTimerStart (w.rtos w.rtos_calls) 0],
        upper := w.upper } := by
  simp [pal_os_event_register_callback_oneshot, rtos_call, h]

/-- A registration that finds the timer: the slot is written and the existing
timer is started; `time_us` does not enter the result. -/
theorem register_restarts (p cb args time_us : Nat) (w : World U)
    (h : w.timer_created = true) :
    pal_os_event_register_callback_oneshot p cb args time_us w =
      { events := Function.update w.events p
          { is_event_triggered := (w.events p).is_event_triggered,
            callback_registered := cb, callback_ctx := args },
        fx_optiga_timer := w.fx_optiga_timer,
        timer_created := true,
        rtos := w.rtos,
        rtos_calls := w.rtos_calls + 1,
        trace := w.trace ++ [Effect.xTimerStart w.fx_optiga_timer 0],
        upper := w.upper } := by
  simp [pal_os_event_register_callback_oneshot, rtos_call, h]

theorem register_seq_restarts (reqs : List RegisterReq) (w : World U)
    (h : w.timer_created = true) :
    (register_seq reqs w).timer_created = true ∧
    timer_creates (register_seq reqs w).trace = timer_creates w.trace ∧
    timer_starts (register_seq reqs w).trace = timer_starts w.trace + reqs.length := by
  induction reqs generalizing w with
  | nil => simp [register_seq, h]
  | cons r rest ih =>
    have hstep := register_restarts r.p_pal_os_event r.callback r.callback_args r.time_us w h
    obtain ⟨h1, h2, h3⟩ := ih (pal_os_event_register_callback_oneshot r.p_pal_os_event
      r.callback r.callback_args r.time_us w) (by rw [hstep])
    refine ⟨h1, ?_, ?_⟩
    · rw [register_seq, h2, hstep]
      simp [timer_creates_append, timer_creates]
    · rw [register_seq, h3, hstep]
      simp [timer_starts_append, timer_starts]
      omega

/-- Whatever the state of the timer, a registration overwrites the callback
and the argument of the slot and leaves its flag and the upper layer alone. -/
theorem register_slot (p cb args time_us : Nat) (w : World U) :
    (pal_os_event_register_callback_oneshot p cb args time_us w).events =
      Function.update w.events p
        { is_event_triggered := (w.events p).is_event_triggered,
          callback_registered := cb, callback_ctx := args } ∧
    (pal_os_event_register_callback_oneshot p cb args time_us w).upper = w.upper := by
  rcases Bool.eq_false_or_eq_true w.timer_created with hc | hc
  · rw [register_restarts p cb args time_us w hc]
    exact ⟨rfl, rfl⟩
  · rw [register_creates p cb args time_us w hc]
    exact ⟨rfl, rfl⟩

theorem destroy_both_pass (q : Nat) (w : World U) (hstop : w.rtos w.rtos_calls = pdPASS)
    (hdel : w.rtos (w.rtos_calls + 1) = pdPASS) :
    pal_os_event_destroy q w =
      { w with timer_created := false, rtos_calls := w.rtos_calls + 2,
               trace := w.trace ++ [Effect.xTimerStop w.fx_optiga_timer 0,
                 Effect.xTimerDelete w.fx_optiga_timer 0] } := by
  simp [pal_os_event_destroy, rtos_call, hstop, hdel]

theorem destroy_one_fails (q : Nat) (w : World U)
    (hfail : ¬ (w.rtos w.rtos_calls = pdPASS ∧ w.rtos (w.rtos_calls + 1) = pdPASS)) :
    pal_os_event_destroy q w =
      { w with rtos_calls := w.rtos_calls + 2,
               trace := w.trace ++ [Effect.xTimerStop w.fx_optiga_timer 0,
                 Effect.xTimerDelete w.fx_optiga_timer 0,
                 Effect.log_error (w.rtos w.rtos_calls) (w.rtos (w.rtos_calls + 1))] } := by
  simp only [pal_os_event_destroy, rtos_call, if_neg hfail]
  simp

/-! ### Claims on the event timer -/

/-- C14: on an event whose `is_event_triggered` is clear, `pal_os_event_start`
sets the flag, stores the callback and the argument, and is the one-shot
registration with `time_us = 1000` on the flagged event, which starts the
timer once (after creating it with a period of one tick when there is none);
other events are untouched.  On an event whose flag is set it returns the
state unchanged. -/
theorem pal_os_event_start_arms_or_noop (p cb args : Nat) (w : World U) :
    ((w.events p).is_event_triggered = false →
      pal_os_event_start p cb args w =
        pal_os_event_register_callback_oneshot p cb args 1000
          { w with events :=
                     Function.update w.events p
                       { w.events p with is_event_triggered := true } } ∧
      (pal_os_event_start p cb args w).events p =
        { is_event_triggered := true, callback_registered := cb, callback_ctx := args } ∧
      (∀ q, q ≠ p → (pal_os_event_start p cb args w).events q = w.events q) ∧
      timer_starts (pal_os_event_start p cb args w).trace = timer_starts w.trace + 1 ∧
      (w.timer_created = false →
        (pal_os_event_start p cb args w).trace = w.trace ++
          [Effect.xTimerCreate 1 false p, Effect.xTimerStart (w.rtos w.rtos_calls) 0]) ∧
      (w.timer_created = true →
        (pal_os_event_start p cb args w).trace = w.trace ++
          [Effect.xTimerStart w.fx_optiga_timer 0])) ∧
    ((w.events p).is_event_triggered = true → pal_os_event_start p cb args w = w) := by
  constructor
  · intro hclear
    have hstart : pal_os_event_start p cb args w =
        pal_os_event_register_callback_oneshot p cb args 1000
          { w with events :=
                     Function.update w.events p
                       { w.events p with is_event_triggered := true } } := by
      simp [pal_os_event_start, hclear]
    refine ⟨hstart, ?_⟩
    rw [hstart]
    rcases Bool.eq_false_or_eq_true w.timer_created with hc | hc
    · have hc1 : ({ w with events :=
                             Function.update w.events p
                               { w.events p with is_event_triggered := true } } :
          World U).timer_created = true := hc
      rw [register_restarts p cb args 1000 _ hc1]
      refine ⟨by simp, fun q hq => by simp [Function.update_noteq hq], ?_,
        fun hfalse => by simp [hc] at hfalse, fun _ => by simp⟩
      simp [timer_starts_append, timer_starts]
    · have hc1 : ({ w with events :=
                             Function.update w.events p
                               { w.events p with is_event_triggered := true } } :
          World U).timer_created = false := hc
      rw [register_creates p cb args 1000 _ hc1]
      refine ⟨by simp, fun q hq => by simp [Function.update_noteq hq], ?_, fun _ => by simp,
        fun hfalse => by simp [hc] at hfalse⟩
      simp [timer_starts_append, timer_starts]
  · intro hset
    simp [pal_os_event_start, hset]

/-- C14 at concrete inputs: the first start arms the event, a second start
with another callback changes nothing. -/
theorem pal_os_event_start_arms_or_noop_witness :
    (pal_os_event_start pal_os_event_0 11 22 (startup rtos_numbered)).events pal_os_event_0 =
      { is_event_triggered := true, callback_registered := 11, callback_ctx := 22 } ∧
    (pal_os_event_start pal_os_event_0 11 22 (startup rtos_numbered)).trace =
      [Effect.xTimerCreate 1 false pal_os_event_0, Effect.xTimerStart 100 0] ∧
    pal_os_event_start pal_os_event_0 33 44
        (pal_os_event_start pal_os_event_0 11 22 (startup rtos_numbered)) =
      pal_os_event_start pal_os_event_0 11 22 (startup rtos_numbered) := by
  obtain ⟨_, hev, _, _, htr, _⟩ :=
    (pal_os_event_start_arms_or_noop pal_os_event_0 11 22 (startup rtos_numbered)).1 rfl
  exact ⟨hev, htr rfl,
    (pal_os_event_start_arms_or_noop pal_os_event_0 33 44
      (pal_os_event_start pal_os_event_0 11 22 (startup rtos_numbered))).2 (by rw [hev])⟩

/-- C15: starting with `timer_created = false`, a non-empty run of
`pal_os_event_register_callback_oneshot` calls makes exactly one
`xTimerCreate` call and one `xTimerStart` call per registration, and ends with
`timer_created = true`. -/
theorem register_seq_creates_timer_once (reqs : List RegisterReq) (w : World U)
    (hnone : w.timer_created = false) (hne : reqs ≠ []) :
    timer_creates (register_seq reqs w).trace = timer_creates w.trace + 1 ∧
    timer_starts (register_seq reqs w).trace = timer_starts w.trace + reqs.length ∧
    (register_seq reqs w).timer_created = true := by
  cases reqs with
  | nil => exact absurd rfl hne
  | cons r rest =>
    have hstep := register_creates r.p_pal_os_event r.callback r.callback_args r.time_us w hnone
    obtain ⟨h1, h2, h3⟩ := register_seq_restarts rest
      (pal_os_event_register_callback_oneshot r.p_pal_os_event r.callback r.callback_args
        r.time_us w) (by rw [hstep])
    refine ⟨?_, ?_, h1⟩
    · rw [register_seq, h2, hstep]
      simp [timer_creates_append, timer_creates]
    · rw [register_seq, h3, hstep]
      simp [timer_starts_append, timer_starts]
      omega

/-- C15 at a concrete input: two registrations in succession create one timer
and start it twice. -/
theorem register_seq_creates_timer_once_witness :
    timer_creates (register_seq
      [{ p_pal_os_event := pal_os_event_0, callback := 11, callback_args := 22, time_us := 50 },
       { p_pal_os_event := pal_os_event_0, callback := 33, callback_args := 44, time_us := 50 }]
      (startup rtos_numbered)).trace = 1 ∧
    timer_starts (register_seq
      [{ p_pal_os_event := pal_os_event_0, callback := 11, callback_args := 22, time_us := 50 },
       { p_pal_os_event := pal_os_event_0, callback := 33, callback_args := 44, time_us := 50 }]
      (startup rtos_numbered)).trace = 2 := by
  obtain ⟨h1, h2, _⟩ := register_seq_creates_timer_once
    [{ p_pal_os_event := pal_os_event_0, callback := 11, callback_args := 22, time_us := 50 },
     { p_pal_os_event := pal_os_event_0, callback := 33, callback_args := 44, time_us := 50 }]
    (startup rtos_numbered) rfl (by simp)
  exact ⟨h1, h2⟩

/-- C16: when `pal_os_event_register_callback_oneshot` finds no timer, the
period it passes to `xTimerCreate` is 1 for `time_us < 1000` and
`time_us / 1000` otherwise, hence at least 1 for every `time_us`. -/
theorem register_oneshot_period_at_least_one (p cb args time_us : Nat) (w : World U)
    (hnone : w.timer_created = false) :
    ∃ period,
      (pal_os_event_register_callback_oneshot p cb args time_us w).trace =
        w.trace ++ [Effect.xTimerCreate period false p,
          Effect.xTimerStart (w.rtos w.rtos_calls) 0] ∧
      (time_us < 1000 → period = 1) ∧
      (1000 ≤ time_us → period = time_us / 1000) ∧
      1 ≤ period := by
  refine ⟨if time_us < 1000 then 1 else time_us / 1000, ?_, ?_, ?_, ?_⟩
  · rw [register_creates p cb args time_us w hnone]
  · intro hlt
    simp [hlt]
  · intro hge
    have : ¬ time_us < 1000 := by omega
    simp [this]
  · by_cases hlt : time_us < 1000
    · simp [hlt]
    · simp only [hlt, if_false]
      omega

/-- C16 at concrete inputs: requests of 50 and of 0 microseconds both create
the timer with a period of one tick. -/
theorem register_oneshot_period_at_least_one_witness :
    (pal_os_event_register_callback_oneshot pal_os_event_0 11 22 50
        (startup rtos_numbered)).trace =
      [Effect.xTimerCreate 1 false pal_os_event_0, Effect.xTimerStart 100 0] ∧
    (pal_os_event_register_callback_oneshot pal_os_event_0 11 22 0
        (startup rtos_numbered)).trace =
      [Effect.xTimerCreate 1 false pal_os_event_0, Effect.xTimerStart 100 0] := by
  obtain ⟨p50, h50, hp50, _, _⟩ :=
    register_oneshot_period_at_least_one pal_os_event_0 11 22 50 (startup rtos_numbered) rfl
  obtain ⟨p0, h0, hp0, _, _⟩ :=
    register_oneshot_period_at_least_one pal_os_event_0 11 22 0 (startup rtos_numbered) rfl
  rw [hp50 (by decide)] at h50
  rw [hp0 (by decide)] at h0
  exact ⟨h50, h0⟩

/-- C17 (the code at the failing input): a first registration with
`time_us = 2000` creates the timer with a period of 2; a second registration
with `time_us = 7000` only issues `xTimerStart` on that timer.  No call
carries the period 7 converted from the second request, so the timer keeps
running with the period 2 of the first. -/
theorem register_oneshot_second_delay_not_applied :
    (register_seq
      [{ p_pal_os_event := pal_os_event_0, callback := 11, callback_args := 22, time_us := 2000 },
       { p_pal_os_event := pal_os_event_0, callback := 11, callback_args := 22, time_us := 7000 }]
      (startup rtos_numbered)).trace =
    [Effect.xTimerCreate 2 false pal_os_event_0, Effect.xTimerStart 100 0,
      Effect.xTimerStart 100 0] := by
  rfl

/-- C18: when the timer exists and `xTimerStop` and `xTimerDelete` both
return `pdPASS`, `pal_os_event_destroy` followed by
`pal_os_event_register_callback_oneshot` makes, after the stop and the
delete, exactly one `xTimerCreate` call and one `xTimerStart` call on the
handle just created, and leaves `timer_created` set. -/
theorem destroy_then_register_recreates_once (q p cb args time_us : Nat) (w : World U)
    (_hexists : w.timer_created = true)
    (hstop : w.rtos w.rtos_calls = pdPASS) (hdel : w.rtos (w.rtos_calls + 1) = pdPASS) :
    (pal_os_event_register_callback_oneshot p cb args time_us
        (pal_os_event_destroy q w)).trace =
      w.trace ++ [Effect.xTimerStop w.fx_optiga_timer 0,
        Effect.xTimerDelete w.fx_optiga_timer 0,
        Effect.xTimerCreate (if time_us < 1000 then 1 else time_us / 1000) false p,
        Effect.xTimerStart (w.rtos (w.rtos_calls + 2)) 0] ∧
    timer_creates (pal_os_event_register_callback_oneshot p cb args time_us
        (pal_os_event_destroy q w)).trace = timer_creates w.trace + 1 ∧
    timer_starts (pal_os_event_register_callback_oneshot p cb args time_us
        (pal_os_event_destroy q w)).trace = timer_starts w.trace + 1 ∧
    (pal_os_event_register_callback_oneshot p cb args time_us
        (pal_os_event_destroy q w)).timer_created = true ∧
    (pal_os_event_register_callback_oneshot p cb args time_us
        (pal_os_event_destroy q w)).fx_optiga_timer = w.rtos (w.rtos_calls + 2) := by
  have hgone : (pal_os_event_destroy q w).timer_created = false := by
    rw [destroy_both_pass q w hstop hdel]
  rw [register_creates p cb args time_us _ hgone, destroy_both_pass q w hstop hdel]
  refine ⟨by simp, ?_, ?_, rfl, rfl⟩
  · simp [timer_creates_append, timer_creates]
  · simp [timer_starts_append, timer_starts]

/-- C18 at a concrete input: start, destroy, register again. -/
theorem destroy_then_register_recreates_once_witness :
    (pal_os_event_start pal_os_event_0 11 22 (startup rtos_pass)).timer_created = true ∧
    timer_creates (pal_os_event_register_callback_oneshot pal_os_event_0 11 22 5000
        (pal_os_event_destroy pal_os_event_0
          (pal_os_event_start pal_os_event_0 11 22 (startup rtos_pass)))).trace =
      timer_creates (pal_os_event_start pal_os_event_0 11 22 (startup rtos_pass)).trace + 1 ∧
    timer_starts (pal_os_event_register_callback_oneshot pal_os_event_0 11 22 5000
        (pal_os_event_destroy pal_os_event_0
          (pal_os_event_start pal_os_event_0 11 22 (startup rtos_pass)))).trace =
      timer_starts (pal_os_event_start pal_os_event_0 11 22 (startup rtos_pass)).trace + 1 := by
  obtain ⟨_, hc, hs, _, _⟩ :=
    destroy_then_register_recreates_once pal_os_event_0 pal_os_event_0 11 22 5000
      (pal_os_event_start pal_os_event_0 11 22 (startup rtos_pass)) rfl rfl rfl
  exact ⟨rfl, hc, hs⟩

/-- C19: `pal_os_event_destroy` makes exactly one `xTimerStop` call and then
exactly one `xTimerDelete` call, whatever the stop returned.  When both
return `pdPASS` it makes no further call and clears `timer_created`;
otherwise `timer_created` keeps its value and the error is logged with the
two statuses.  The event slots and the handle are not touched. -/
theorem pal_os_event_destroy_stop_delete_once (q : Nat) (w : World U) :
    ((w.rtos w.rtos_calls = pdPASS ∧ w.rtos (w.rtos_calls + 1) = pdPASS) →
      (pal_os_event_destroy q w).trace =
        w.trace ++ [Effect.xTimerStop w.fx_optiga_timer 0,
          Effect.xTimerDelete w.fx_optiga_timer 0] ∧
      (pal_os_event_destroy q w).timer_created = false) ∧
    (¬ (w.rtos w.rtos_calls = pdPASS ∧ w.rtos (w.rtos_calls + 1) = pdPASS) →
      (pal_os_event_destroy q w).trace =
        w.trace ++ [Effect.xTimerStop w.fx_optiga_timer 0,
          Effect.xTimerDelete w.fx_optiga_timer 0,
          Effect.log_error (w.rtos w.rtos_calls) (w.rtos (w.rtos_calls + 1))] ∧
      (pal_os_event_destroy q w).timer_created = w.timer_created) ∧
    (pal_os_event_destroy q w).rtos_calls = w.rtos_calls + 2 ∧
    (pal_os_event_destroy q w).events = w.events ∧
    (pal_os_event_destroy q w).fx_optiga_timer = w.fx_optiga_timer := by
  by_cases hboth : w.rtos w.rtos_calls = pdPASS ∧ w.rtos (w.rtos_calls + 1) = pdPASS
  · rw [destroy_both_pass q w hboth.1 hboth.2]
    exact ⟨fun _ => ⟨rfl, rfl⟩, fun hn => absurd hboth hn, rfl, rfl, rfl⟩
  · rw [destroy_one_fails q w hboth]
    exact ⟨fun hb => absurd hb hboth, fun _ => ⟨rfl, rfl⟩, rfl, rfl, rfl⟩

/-- C19 at concrete inputs: a destroy whose stop and delete pass, and a
destroy whose stop and delete return 102 and 103. -/
theorem pal_os_event_destroy_stop_delete_once_witness :
    (pal_os_event_destroy pal_os_event_0
        (pal_os_event_start pal_os_event_0 11 22 (startup rtos_pass))).timer_created = false ∧
    (pal_os_event_destroy pal_os_event_0
        (pal_os_event_start pal_os_event_0 11 22 (startup rtos_numbered))).timer_created = true ∧
    (pal_os_event_destroy pal_os_event_0
        (pal_os_event_start pal_os_event_0 11 22 (startup rtos_numbered))).trace =
      [Effect.xTimerCreate 1 false pal_os_event_0, Effect.xTimerStart 100 0,
        Effect.xTimerStop 100 0, Effect.xTimerDelete 100 0, Effect.log_error 102 103] :=
  ⟨((pal_os_event_destroy_stop_delete_once pal_os_event_0
      (pal_os_event_start pal_os_event_0 11 22 (startup rtos_pass))).1 ⟨rfl, rfl⟩).2,
   ((pal_os_event_destroy_stop_delete_once pal_os_event_0
      (pal_os_event_start pal_os_event_0 11 22 (startup rtos_numbered))).2.1 (by decide)).2,
   ((pal_os_event_destroy_stop_delete_once pal_os_event_0
      (pal_os_event_start pal_os_event_0 11 22 (startup rtos_numbered))).2.1 (by decide)).1⟩

/-- C20: when the slot `pal_os_event_0` holds a callback,
`pal_os_event_trigger_registered_callback` is one recorded invocation of that
callback with the stored argument, followed by its body; with callbacks that
act on the upper layer only the trace grows by exactly that one entry.  When
the slot holds NULL the state is unchanged.  After two registrations on
`pal_os_event_0` the one invocation is that of the second callback with the
second argument. -/
theorem trigger_invokes_registered_callback_once (prog : Nat → Nat → World U → World U)
    (f : Nat → Nat → U → U) (w : World U) :
    ((w.events pal_os_event_0).callback_registered ≠ 0 →
      pal_os_event_trigger_registered_callback prog w =
        prog (w.events pal_os_event_0).callback_registered
          (w.events pal_os_event_0).callback_ctx
          { w with trace := w.trace ++
              [Effect.callback (w.events pal_os_event_0).callback_registered
                (w.events pal_os_event_0).callback_ctx] } ∧
      (pal_os_event_trigger_registered_callback (upper_only f) w).trace =
        w.trace ++ [Effect.callback (w.events pal_os_event_0).callback_registered
          (w.events pal_os_event_0).callback_ctx] ∧
      (pal_os_event_trigger_registered_callback (upper_only f) w).upper =
        f (w.events pal_os_event_0).callback_registered
          (w.events pal_os_event_0).callback_ctx w.upper) ∧
    ((w.events pal_os_event_0).callback_registered = 0 →
      pal_os_event_trigger_registered_callback prog w = w) ∧
    (∀ cb1 args1 t1 cb2 args2 t2, cb2 ≠ 0 →
      invocations (pal_os_event_trigger_registered_callback (upper_only f)
        (pal_os_event_register_callback_oneshot pal_os_event_0 cb2 args2 t2
          (pal_os_event_register_callback_oneshot pal_os_event_0 cb1 args1 t1 w))).trace =
        invocations w.trace ++ [(cb2, args2)] ∧
      (pal_os_event_trigger_registered_callback (upper_only f)
        (pal_os_event_register_callback_oneshot pal_os_event_0 cb2 args2 t2
          (pal_os_event_register_callback_oneshot pal_os_event_0 cb1 args1 t1 w))).upper =
        f cb2 args2 w.upper) := by
  have hsome : ∀ (g : Nat → Nat → World U → World U) (v : World U),
      (v.events pal_os_event_0).callback_registered ≠ 0 →
      pal_os_event_trigger_registered_callback g v =
        g (v.events pal_os_event_0).callback_registered (v.events pal_os_event_0).callback_ctx
          { v with trace := v.trace ++
              [Effect.callback (v.events pal_os_event_0).callback_registered
                (v.events pal_os_event_0).callback_ctx] } := by
    intro g v hv
    simp only [pal_os_event_trigger_registered_callback, if_pos hv]
  refine ⟨fun hreg => ⟨hsome prog w hreg, by rw [hsome _ w hreg]; rfl,
    by rw [hsome _ w hreg]; rfl⟩, ?_, ?_⟩
  · intro hnull
    simp [pal_os_event_trigger_registered_callback, hnull]
  · intro cb1 args1 t1 cb2 args2 t2 hcb2
    obtain ⟨hev1, hup1⟩ := register_slot pal_os_event_0 cb1 args1 t1 w
    obtain ⟨hev2, hup2⟩ := register_slot pal_os_event_0 cb2 args2 t2
      (pal_os_event_register_callback_oneshot pal_os_event_0 cb1 args1 t1 w)
    have hslot : ((pal_os_event_register_callback_oneshot pal_os_event_0 cb2 args2 t2
        (pal_os_event_register_callback_oneshot pal_os_event_0 cb1 args1 t1 w)).events
          pal_os_event_0).callback_registered = cb2 ∧
        ((pal_os_event_register_callback_oneshot pal_os_event_0 cb2 args2 t2
        (pal_os_event_register_callback_oneshot pal_os_event_0 cb1 args1 t1 w)).events
          pal_os_event_0).callback_ctx = args2 := by
      rw [hev2]
      simp
    have hinv : invocations (pal_os_event_register_callback_oneshot pal_os_event_0 cb2 args2 t2
        (pal_os_event_register_callback_oneshot pal_os_event_0 cb1 args1 t1 w)).trace =
        invocations w.trace := by
      rcases Bool.eq_false_or_eq_true w.timer_created with hc | hc
      · have hc1 : (pal_os_event_register_callback_oneshot pal_os_event_0 cb1 args1 t1
            w).timer_created = true := by rw [register_restarts _ _ _ _ w hc]
        rw [register_restarts _ _ _ _ _ hc1, register_restarts _ _ _ _ w hc]
        simp [invocations_append, invocations]
      · have hc1 : (pal_os_event_register_callback_oneshot pal_os_event_0 cb1 args1 t1
            w).timer_created = true := by rw [register_creates _ _ _ _ w hc]
        rw [register_restarts _ _ _ _ _ hc1, register_creates _ _ _ _ w hc]
        simp [invocations_append, invocations]
    rw [hsome _ _ (by rw [hslot.1]; exact hcb2)]
    simp only [upper_only, hslot.1, hslot.2, invocations_append, hinv, hup2, hup1]
    simp [invocations]

/-- C20 at a concrete input: two registrations with different callbacks, then
the timer expires. -/
theorem trigger_invokes_registered_callback_once_witness :
    invocations (pal_os_event_trigger_registered_callback (upper_only log_call)
      (pal_os_event_register_callback_oneshot pal_os_event_0 33 44 1000
        (pal_os_event_register_callback_oneshot pal_os_event_0 11 22 1000
          (startup rtos_numbered)))).trace = [(33, 44)] ∧
    pal_os_event_trigger_registered_callback (upper_only log_call) (startup rtos_numbered) =
      startup rtos_numbered :=
  ⟨((trigger_invokes_registered_callback_once (upper_only log_call) log_call
      (startup rtos_numbered)).2.2 11 22 1000 33 44 1000 (by decide)).1,
   (trigger_invokes_registered_callback_once (upper_only log_call) log_call
      (startup rtos_numbered)).2.1 rfl⟩

/-- A start on an event whose flag is clear writes the slot and issues one
`xTimerStart`. -/
theorem start_armed (p cb args : Nat) (w : World U)
    (hclear : (w.events p).is_event_triggered = false) :
    (pal_os_event_start p cb args w).events p =
      { is_event_triggered := true, callback_registered := cb, callback_ctx := args } ∧
    timer_starts (pal_os_event_start p cb args w).trace = timer_starts w.trace + 1 := by
  have hstart : pal_os_event_start p cb args w =
      pal_os_event_register_callback_oneshot p cb args 1000
        { w with events :=
                   Function.update w.events p
                     { w.events p with is_event_triggered := true } } := by
    simp [pal_os_event_start, hclear]
  rw [hstart]
  rcases Bool.eq_false_or_eq_true w.timer_created with hc | hc
  · have hc1 : ({ w with events :=
                           Function.update w.events p
                             { w.events p with is_event_triggered := true } } :
        World U).timer_created = true := hc
    rw [register_restarts p cb args 1000 _ hc1]
    exact ⟨by simp, by simp [timer_starts_append, timer_starts]⟩
  · have hc1 : ({ w with events :=
                           Function.update w.events p
                             { w.events p with is_event_triggered := true } } :
        World U).timer_created = false := hc
    rw [register_creates p cb args 1000 _ hc1]
    exact ⟨by simp, by simp [timer_starts_append, timer_starts]⟩

/-- A start on an event whose flag is set returns the state as it is. -/
theorem start_noop (p cb args : Nat) (v : World U)
    (hset : (v.events p).is_event_triggered = true) :
    pal_os_event_start p cb args v = v := by
  simp [pal_os_event_start, hset]

/-- Expiry with a registered callback that acts on the upper layer only. -/
theorem trigger_registered (f : Nat → Nat → U → U) (v : World U)
    (hreg : (v.events pal_os_event_0).callback_registered ≠ 0) :
    pal_os_event_trigger_registered_callback (upper_only f) v =
      { v with trace := v.trace ++
                 [Effect.callback (v.events pal_os_event_0).callback_registered
                   (v.events pal_os_event_0).callback_ctx],
               upper := f (v.events pal_os_event_0).callback_registered
                 (v.events pal_os_event_0).callback_ctx v.upper } := by
  simp only [pal_os_event_trigger_registered_callback, if_pos hreg, upper_only]

/-- Expiry never changes the event slots when callbacks act on the upper
layer only. -/
theorem trigger_keeps_events (f : Nat → Nat → U → U) (v : World U) :
    (pal_os_event_trigger_registered_callback (upper_only f) v).events = v.events := by
  by_cases hv : (v.events pal_os_event_0).callback_registered ≠ 0
  · rw [trigger_registered f v hv]
  · simp only [pal_os_event_trigger_registered_callback, if_neg hv]

/-- C21: `pal_os_event_stop` clears `is_event_triggered` of the event it is
given and changes nothing else: the callback and argument of that slot, the
other events, `timer_created`, the timer handle, the upper layer and the trace
are as before, so no RTOS call (no `xTimerStop`) is made.  A timer expiry
(`Cy_PAL_CbkWrapper`) after the stop still invokes the callback registered in
`pal_os_event_0` with its argument. -/
theorem pal_os_event_stop_clears_flag_only (p xTimer : Nat) (f : Nat → Nat → U → U)
    (w : World U) :
    (pal_os_event_stop p w).events p =
      { is_event_triggered := false,
        callback_registered := (w.events p).callback_registered,
        callback_ctx := (w.events p).callback_ctx } ∧
    (∀ q, q ≠ p → (pal_os_event_stop p w).events q = w.events q) ∧
    (pal_os_event_stop p w).timer_created = w.timer_created ∧
    (pal_os_event_stop p w).fx_optiga_timer = w.fx_optiga_timer ∧
    (pal_os_event_stop p w).trace = w.trace ∧
    (pal_os_event_stop p w).rtos_calls = w.rtos_calls ∧
    (pal_os_event_stop p w).upper = w.upper ∧
    ((w.events pal_os_event_0).callback_registered ≠ 0 →
      (Cy_PAL_CbkWrapper (upper_only f) xTimer (pal_os_event_stop pal_os_event_0 w)).trace =
        w.trace ++ [Effect.callback (w.events pal_os_event_0).callback_registered
          (w.events pal_os_event_0).callback_ctx]) := by
  refine ⟨by simp [pal_os_event_stop], fun q hq => by
    simp [pal_os_event_stop, Function.update_noteq hq], rfl, rfl, rfl, rfl, rfl, ?_⟩
  intro hreg
  have hslot : (pal_os_event_stop pal_os_event_0 w).events pal_os_event_0 =
      { is_event_triggered := false,
        callback_registered := (w.events pal_os_event_0).callback_registered,
        callback_ctx := (w.events pal_os_event_0).callback_ctx } := by
    simp [pal_os_event_stop]
  have hreg1 : ((pal_os_event_stop pal_os_event_0 w).events
      pal_os_event_0).callback_registered ≠ 0 := by
    rw [hslot]; exact hreg
  rw [Cy_PAL_CbkWrapper, trigger_registered f _ hreg1, hslot]
  rfl

/-- C21 at a concrete input: start, stop, then the timer expires. -/
theorem pal_os_event_stop_clears_flag_only_witness :
    (pal_os_event_stop pal_os_event_0
      (pal_os_event_start pal_os_event_0 11 22 (startup rtos_numbered))).events pal_os_event_0 =
      { is_event_triggered := false, callback_registered := 11, callback_ctx := 22 } ∧
    (Cy_PAL_CbkWrapper (upper_only log_call) 100
      (pal_os_event_stop pal_os_event_0
        (pal_os_event_start pal_os_event_0 11 22 (startup rtos_numbered)))).trace =
      [Effect.xTimerCreate 1 false pal_os_event_0, Effect.xTimerStart 100 0,
        Effect.callback 11 22] :=
  ⟨(pal_os_event_stop_clears_flag_only pal_os_event_0 100 log_call
      (pal_os_event_start pal_os_event_0 11 22 (startup rtos_numbered))).1,
   (pal_os_event_stop_clears_flag_only pal_os_event_0 100 log_call
      (pal_os_event_start pal_os_event_0 11 22 (startup rtos_numbered))).2.2.2.2.2.2.2
      (by decide)⟩

/-- C22 (as stated, at a concrete input): after `pal_os_event_start` has armed
`pal_os_event_0` and the expiry has run the registered callback, the flag
`is_event_triggered` is still set and a following `pal_os_event_start`
returns the state unchanged: the event is not Idle and the timer is not armed
again. -/
theorem pal_os_event_not_idle_after_expiry_counterexample :
    ¬ ((pal_os_event_trigger_registered_callback (upper_only log_call)
        (pal_os_event_start pal_os_event_0 11 22 (startup rtos_numbered))).events
          pal_os_event_0).is_event_triggered = false ∧
    (pal_os_event_start pal_os_event_0 11 22
      (pal_os_event_trigger_registered_callback (upper_only log_call)
        (pal_os_event_start pal_os_event_0 11 22 (startup rtos_numbered)))).trace =
      [Effect.xTimerCreate 1 false pal_os_event_0, Effect.xTimerStart 100 0,
        Effect.callback 11 22] := by
  constructor
  · decide
  · rfl

/-- C22 (amended): `pal_os_event_trigger_registered_callback` leaves the slots
as they are when the callback acts on the upper layer only, so after a start
and the expiry the flag is still set and a following `pal_os_event_start` is
a no-op; the event is Idle again only after `pal_os_event_stop`, and then a
following `pal_os_event_start` starts the timer once more. -/
theorem pal_os_event_idle_only_after_stop (p cb args cb2 args2 : Nat)
    (f : Nat → Nat → U → U) (w : World U)
    (hidle : (w.events p).is_event_triggered = false) :
    ((pal_os_event_trigger_registered_callback (upper_only f)
        (pal_os_event_start p cb args w)).events p).is_event_triggered = true ∧
    pal_os_event_start p cb2 args2
        (pal_os_event_trigger_registered_callback (upper_only f)
          (pal_os_event_start p cb args w)) =
      pal_os_event_trigger_registered_callback (upper_only f)
        (pal_os_event_start p cb args w) ∧
    ((pal_os_event_stop p (pal_os_event_trigger_registered_callback (upper_only f)
        (pal_os_event_start p cb args w))).events p).is_event_triggered = false ∧
    timer_starts (pal_os_event_start p cb2 args2
        (pal_os_event_stop p (pal_os_event_trigger_registered_callback (upper_only f)
          (pal_os_event_start p cb args w)))).trace =
      timer_starts (pal_os_event_trigger_registered_callback (upper_only f)
        (pal_os_event_start p cb args w)).trace + 1 := by
  have hset : ((pal_os_event_trigger_registered_callback (upper_only f)
      (pal_os_event_start p cb args w)).events p).is_event_triggered = true := by
    rw [trigger_keeps_events, (start_armed p cb args w hidle).1]
  have hclear : ((pal_os_event_stop p (pal_os_event_trigger_registered_callback (upper_only f)
      (pal_os_event_start p cb args w))).events p).is_event_triggered = false := by
    simp [pal_os_event_stop]
  refine ⟨hset, ?_, hclear, ?_⟩
  · exact start_noop p cb2 args2 _ hset
  · rw [(start_armed p cb2 args2 _ hclear).2]
    rfl

/-- C22 (amended) at a concrete input: start, expiry, a second start that
changes nothing, then stop and a third start that issues `xTimerStart` again. -/
theorem pal_os_event_idle_only_after_stop_witness :
    ((startup rtos_numbered).events pal_os_event_0).is_event_triggered = false ∧
    pal_os_event_start pal_os_event_0 33 44
        (pal_os_event_trigger_registered_callback (upper_only log_call)
          (pal_os_event_start pal_os_event_0 11 22 (startup rtos_numbered))) =
      pal_os_event_trigger_registered_callback (upper_only log_call)
        (pal_os_event_start pal_os_event_0 11 22 (startup rtos_numbered)) ∧
    timer_starts (pal_os_event_start pal_os_event_0 33 44
        (pal_os_event_stop pal_os_event_0
          (pal_os_event_trigger_registered_callback (upper_only log_call)
            (pal_os_event_start pal_os_event_0 11 22 (startup rtos_numbered))))).trace =
      timer_starts (pal_os_event_trigger_registered_callback (upper_only log_call)
        (pal_os_event_start pal_os_event_0 11 22 (startup rtos_numbered))).trace + 1 :=
  ⟨rfl,
   (pal_os_event_idle_only_after_stop pal_os_event_0 11 22 33 44 log_call
      (startup rtos_numbered) rfl).2.1,
   (pal_os_event_idle_only_after_stop pal_os_event_0 11 22 33 44 log_call
      (startup rtos_numbered) rfl).2.2.2⟩

/-- C29: for every outcome of `xTimerStop` and `xTimerDelete`,
`pal_os_event_destroy` leaves every event slot (flag, callback, argument) as
it was; hence on an event whose flag was set before the destroy a following
`pal_os_event_start` returns the state unchanged, making no `xTimerCreate`
and no `xTimerStart` call. -/
theorem pal_os_event_destroy_keeps_slot (q p cb args : Nat) (w : World U) :
    (pal_os_event_destroy q w).events = w.events ∧
    ((w.events p).is_event_triggered = true →
      pal_os_event_start p cb args (pal_os_event_destroy q w) = pal_os_event_destroy q w ∧
      timer_creates (pal_os_event_start p cb args (pal_os_event_destroy q w)).trace =
        timer_creates (pal_os_event_destroy q w).trace ∧
      timer_starts (pal_os_event_start p cb args (pal_os_event_destroy q w)).trace =
        timer_starts (pal_os_event_destroy q w).trace) := by
  have hev : (pal_os_event_destroy q w).events = w.events := by
    by_cases hboth : w.rtos w.rtos_calls = pdPASS ∧ w.rtos (w.rtos_calls + 1) = pdPASS
    · rw [destroy_both_pass q w hboth.1 hboth.2]
    · rw [destroy_one_fails q w hboth]
  refine ⟨hev, fun hset => ?_⟩
  have hnoop := start_noop p cb args (pal_os_event_destroy q w) (by rw [hev]; exact hset)
  exact ⟨hnoop, by rw [hnoop], by rw [hnoop]⟩

/-- C29 at a concrete input: start, destroy (stop and delete pass), start
again: the second start changes nothing, although the timer is gone. -/
theorem pal_os_event_destroy_keeps_slot_witness :
    (pal_os_event_destroy pal_os_event_0
      (pal_os_event_start pal_os_event_0 11 22 (startup rtos_pass))).events pal_os_event_0 =
      { is_event_triggered := true, callback_registered := 11, callback_ctx := 22 } ∧
    (pal_os_event_destroy pal_os_event_0
      (pal_os_event_start pal_os_event_0 11 22 (startup rtos_pass))).timer_created = false ∧
    pal_os_event_start pal_os_event_0 33 44
        (pal_os_event_destroy pal_os_event_0
          (pal_os_event_start pal_os_event_0 11 22 (startup rtos_pass))) =
      pal_os_event_destroy pal_os_event_0
        (pal_os_event_start pal_os_event_0 11 22 (startup rtos_pass)) := by
  obtain ⟨hev, hnoop⟩ := pal_os_event_destroy_keeps_slot pal_os_event_0 pal_os_event_0 33 44
    (pal_os_event_start pal_os_event_0 11 22 (startup rtos_pass))
  refine ⟨?_, rfl, (hnoop (by decide)).1⟩
  rw [hev]
  decide

end PalOsEvent

namespace PalGpio

open PalI2c.pal_status_t

/-- C23: `pal_gpio_init` returns `PAL_STATUS_FAILURE` with the state unchanged
(no driver call) when the line descriptor is NULL or its `p_gpio_hw` is NULL.
Otherwise it makes exactly one `Cy_GPIO_Pin_Init` call, with the port, pin and
configuration of the descriptor, and returns `PAL_STATUS_SUCCESS` exactly when
the driver returns `CY_GPIO_SUCCESS`, and `PAL_STATUS_FAILURE` if not. -/
theorem pal_gpio_init_checks_descriptor (p_gpio_context : Option pal_gpio_t) (w : World) :
    ((p_gpio_context = none ∨ ∃ ctx, p_gpio_context = some ctx ∧ ctx.p_gpio_hw = none) →
      pal_gpio_init p_gpio_context w = (PAL_STATUS_FAILURE, w)) ∧
    (∀ ctx hw, p_gpio_context = some ctx → ctx.p_gpio_hw = some hw →
      (pal_gpio_init p_gpio_context w).2.trace =
        w.trace ++ [Effect.Cy_GPIO_Pin_Init hw.fx_gpio_port hw.fx_gpio_pin hw.fx_gpio_pinCfg] ∧
      (pal_gpio_init p_gpio_context w).2.gpio_calls = w.gpio_calls + 1 ∧
      ((pal_gpio_init p_gpio_context w).1 = PAL_STATUS_SUCCESS ↔
        w.gpio w.gpio_calls = CY_GPIO_SUCCESS) ∧
      (w.gpio w.gpio_calls ≠ CY_GPIO_SUCCESS →
        (pal_gpio_init p_gpio_context w).1 = PAL_STATUS_FAILURE)) := by
  constructor
  · rintro (hnone | ⟨ctx, hctx, hhw⟩)
    · subst hnone
      rfl
    · subst hctx
      simp [pal_gpio_init, hhw]
  · intro ctx hw hctx hhw
    subst hctx
    by_cases hs : w.gpio w.gpio_calls = CY_GPIO_SUCCESS
    · simp [pal_gpio_init, hhw, hs]
    · simp [pal_gpio_init, hhw, hs]

/-- C23 at concrete inputs: a NULL descriptor, a descriptor without hardware
binding, and a bound line whose driver call succeeds. -/
theorem pal_gpio_init_checks_descriptor_witness :
    pal_gpio_init none (gpio_startup (fun _ => 0)) =
      (PAL_STATUS_FAILURE, gpio_startup (fun _ => 0)) ∧
    pal_gpio_init (some { p_gpio_hw := none }) (gpio_startup (fun _ => 0)) =
      (PAL_STATUS_FAILURE, gpio_startup (fun _ => 0)) ∧
    (pal_gpio_init (some sample_line) (gpio_startup (fun _ => 0))).2.trace =
      [Effect.Cy_GPIO_Pin_Init 5 3 8] ∧
    (pal_gpio_init (some sample_line) (gpio_startup (fun _ => 0))).1 = PAL_STATUS_SUCCESS :=
  ⟨(pal_gpio_init_checks_descriptor none (gpio_startup (fun _ => 0))).1 (Or.inl rfl),
   (pal_gpio_init_checks_descriptor (some { p_gpio_hw := none })
      (gpio_startup (fun _ => 0))).1 (Or.inr ⟨_, rfl, rfl⟩),
   ((pal_gpio_init_checks_descriptor (some sample_line) (gpio_startup (fun _ => 0))).2
      sample_line _ rfl rfl).1,
   ((pal_gpio_init_checks_descriptor (some sample_line) (gpio_startup (fun _ => 0))).2
      sample_line _ rfl rfl).2.2.1.mpr rfl⟩

end PalGpio

namespace PalOsTimer

/-- C24 (as stated, at a concrete input): the tick values 4294967 and 4294968
are in order, but the microsecond values derived from them are 4294967000 and
704, which are not. -/
theorem microseconds_not_monotonic_counterexample :
    4294967 ≤ 4294968 ∧
    ¬ pal_os_timer_get_time_in_microseconds 4294967 ≤
      pal_os_timer_get_time_in_microseconds 4294968 := by
  decide

/-- C24 (amended): the microsecond value is `t * 1000` reduced modulo
`2 ^ 32`; for tick values `t1 ≤ t2` with `t2 * 1000 < 2 ^ 32` (at most
4294967 ms) it equals `t * 1000` and is monotonic. -/
theorem microseconds_monotonic_below_wrap (t1 t2 : Nat) (hle : t1 ≤ t2)
    (hrange : t2 * 1000 < 2 ^ 32) :
    pal_os_timer_get_time_in_microseconds t1 ≤ pal_os_timer_get_time_in_microseconds t2 ∧
    pal_os_timer_get_time_in_microseconds t1 = t1 * 1000 ∧
    pal_os_timer_get_time_in_microseconds t2 = t2 * 1000 := by
  have h2 : t2 < 2 ^ 32 := by omega
  have h1 : t1 < 2 ^ 32 := by omega
  have h1r : t1 * 1000 < 2 ^ 32 := by omega
  have e1 : pal_os_timer_get_time_in_microseconds t1 = t1 * 1000 := by
    simp only [pal_os_timer_get_time_in_microseconds, pal_os_timer_get_time_in_milliseconds]
    rw [Nat.mod_eq_of_lt h1, Nat.mod_eq_of_lt h1r]
  have e2 : pal_os_timer_get_time_in_microseconds t2 = t2 * 1000 := by
    simp only [pal_os_timer_get_time_in_microseconds, pal_os_timer_get_time_in_milliseconds]
    rw [Nat.mod_eq_of_lt h2, Nat.mod_eq_of_lt hrange]
  refine ⟨?_, e1, e2⟩
  rw [e1, e2]
  omega

/-- C24 (amended) at a concrete input: one second and the last tick before
the microsecond value wraps. -/
theorem microseconds_monotonic_below_wrap_witness :
    pal_os_timer_get_time_in_microseconds 1000 ≤
      pal_os_timer_get_time_in_microseconds 4294967 ∧
    pal_os_timer_get_time_in_microseconds 4294967 = 4294967000 := by
  obtain ⟨hle, _, h2⟩ := microseconds_monotonic_below_wrap 1000 4294967 (by decide) (by decide)
  exact ⟨hle, h2⟩

end PalOsTimer

namespace UsbI2c

open cy_en_scb_i2c_command_t cy_en_scb_i2c_direction_t

/-! ### The byte loops -/

theorem pdl_call_status (e : Effect) (w : World) : (pdl_call e w).1 = w.pdl w.pdl_calls := rfl

theorem pdl_call_state (e : Effect) (w : World) :
    (pdl_call e w).2.pdl = w.pdl ∧ (pdl_call e w).2.rx = w.rx ∧
    (pdl_call e w).2.pdl_calls = w.pdl_calls + 1 ∧
    (pdl_call e w).2.trace = w.trace ++ [e] := ⟨rfl, rfl, rfl, rfl⟩

/-- The write loop entered with a success status: it attempts `m` bytes in
buffer order, all before the last attempted one succeed, and either all
`size` bytes succeeded or the last attempted byte is the first failure and
gives the status. -/
theorem write_bytes_spec (data : Nat → Nat) (size off status : Nat) (w : World)
    (hst : status = CY_SCB_I2C_SUCCESS) :
    ∃ m, m ≤ size ∧
      (write_bytes data size off status w).2.trace = w.trace ++ byte_writes data off m ∧
      (∀ j, j + 1 < m → w.pdl (w.pdl_calls + j) = CY_SCB_I2C_SUCCESS) ∧
      ((m = size ∧ (write_bytes data size off status w).1 = CY_SCB_I2C_SUCCESS ∧
          ∀ j, j < size → w.pdl (w.pdl_calls + j) = CY_SCB_I2C_SUCCESS) ∨
       (1 ≤ m ∧ w.pdl (w.pdl_calls + (m - 1)) ≠ CY_SCB_I2C_SUCCESS ∧
          (write_bytes data size off status w).1 = w.pdl (w.pdl_calls + (m - 1)))) := by
  induction size generalizing off status w with
  | zero =>
    exact ⟨0, le_refl _, by simp [write_bytes, byte_writes], fun j hj => by omega,
      Or.inl ⟨rfl, by simpa [write_bytes] using hst, fun j hj => by omega⟩⟩
  | succ n ih =>
    by_cases h0 : w.pdl w.pdl_calls = CY_SCB_I2C_SUCCESS
    · obtain ⟨m, hm, htr, hpre, hcase⟩ :=
        ih (off + 1) (w.pdl w.pdl_calls) (pdl_call (Effect.MasterWriteByte (data off)) w).2 h0
      have hstep : write_bytes data (n + 1) off status w =
          write_bytes data n (off + 1) (w.pdl w.pdl_calls)
            (pdl_call (Effect.MasterWriteByte (data off)) w).2 := by
        simp [write_bytes, pdl_call_status, h0]
      have hidx : ∀ j, (pdl_call (Effect.MasterWriteByte (data off)) w).2.pdl
          ((pdl_call (Effect.MasterWriteByte (data off)) w).2.pdl_calls + j) =
          w.pdl (w.pdl_calls + (j + 1)) := by
        intro j
        show w.pdl (w.pdl_calls + 1 + j) = w.pdl (w.pdl_calls + (j + 1))
        rw [Nat.add_assoc, Nat.add_comm 1 j]
      refine ⟨m + 1, by omega, ?_, ?_, ?_⟩
      · rw [hstep, htr]
        simp [pdl_call, byte_writes]
      · intro j hj
        cases j with
        | zero => simpa using h0
        | succ j =>
          rw [← hidx j]
          exact hpre j (by omega)
      · rcases hcase with ⟨hms, hres, hall⟩ | ⟨hm1, hfail, hres⟩
        · refine Or.inl ⟨by omega, by rw [hstep]; exact hres, fun j hj => ?_⟩
          cases j with
          | zero => simpa using h0
          | succ j =>
            rw [← hidx j]
            exact hall j (by omega)
        · refine Or.inr ⟨by omega, ?_, ?_⟩
          · have hm' : m + 1 - 1 = (m - 1) + 1 := by omega
            rw [hm', ← hidx (m - 1)]
            exact hfail
          · have hm' : m + 1 - 1 = (m - 1) + 1 := by omega
            rw [hstep, hres, hm', ← hidx (m - 1)]
    · refine ⟨1, by omega, ?_, fun j hj => by omega, Or.inr ⟨le_refl _, by simpa using h0, ?_⟩⟩
      · simp [write_bytes, pdl_call, h0, byte_writes]
      · simp [write_bytes, pdl_call, h0]

/-- The state right after the start condition of a write transfer. -/
theorem write_started (dev_addr : Nat) (w : World) :
    (pdl_call (start_of dev_addr CY_SCB_I2C_WRITE_XFER w)
        (pdl_void Effect.ClearTxFifo (pdl_void Effect.ClearMasterInterrupt w))).2.trace =
      w.trace ++ [Effect.ClearMasterInterrupt, Effect.ClearTxFifo,
        start_of dev_addr CY_SCB_I2C_WRITE_XFER w] := by
  simp [pdl_call, pdl_void]

/-- Source `cyi2c_master_write` with the two branches of the start merged. -/
theorem cyi2c_master_write_unfold (dev_addr : Nat) (data : Nat → Nat) (size : Nat)
    (send_stop : Bool) (w : World) :
    cyi2c_master_write dev_addr data size send_stop w =
      ((if w.pdl w.pdl_calls = CY_SCB_I2C_SUCCESS then
          write_bytes data size 0 (w.pdl w.pdl_calls)
            (pdl_call (start_of dev_addr CY_SCB_I2C_WRITE_XFER w)
              (pdl_void Effect.ClearTxFifo (pdl_void Effect.ClearMasterInterrupt w))).2
        else
          pdl_call (start_of dev_addr CY_SCB_I2C_WRITE_XFER w)
            (pdl_void Effect.ClearTxFifo (pdl_void Effect.ClearMasterInterrupt w))).1,
       if send_stop then
         (pdl_call Effect.MasterSendStop
           (if w.pdl w.pdl_calls = CY_SCB_I2C_SUCCESS then
              write_bytes data size 0 (w.pdl w.pdl_calls)
                (pdl_call (start_of dev_addr CY_SCB_I2C_WRITE_XFER w)
                  (pdl_void Effect.ClearTxFifo (pdl_void Effect.ClearMasterInterrupt w))).2
            else
              pdl_call (start_of dev_addr CY_SCB_I2C_WRITE_XFER w)
                (pdl_void Effect.ClearTxFifo (pdl_void Effect.ClearMasterInterrupt w))).2).2
       else
         (if w.pdl w.pdl_calls = CY_SCB_I2C_SUCCESS then
            write_bytes data size 0 (w.pdl w.pdl_calls)
              (pdl_call (start_of dev_addr CY_SCB_I2C_WRITE_XFER w)
                (pdl_void Effect.ClearTxFifo (pdl_void Effect.ClearMasterInterrupt w))).2
          else
            pdl_call (start_of dev_addr CY_SCB_I2C_WRITE_XFER w)
              (pdl_void Effect.ClearTxFifo (pdl_void Effect.ClearMasterInterrupt w))).2) := by
  rcases Bool.eq_false_or_eq_true w.idle with hi | hi
  · simp [cyi2c_master_write, start_of, pdl_void, pdl_call, hi]
  · simp [cyi2c_master_write, start_of, pdl_void, pdl_call, hi]

/-- A stop condition is appended exactly when requested. -/
theorem stop_appended (send_stop : Bool) (v : World) :
    (if send_stop then (pdl_call Effect.MasterSendStop v).2 else v).trace =
      v.trace ++ stop_of send_stop := by
  cases send_stop <;> simp [pdl_call, stop_of]

/-- The read loop with `n + 1` bytes left, entered with the ACK command, when
every byte read succeeds: `n` reads with ACK and a last one with NAK, filling
the offsets `off, ..., off + n` with the received bytes and nothing else. -/
theorem read_bytes_all_ok (n off status : Nat) (buf : Nat → Nat) (w : World)
    (hall : ∀ j, j < n + 1 → w.pdl (w.pdl_calls + j) = CY_SCB_I2C_SUCCESS) :
    (read_bytes (n + 1) off CY_SCB_I2C_ACK buf status w).1 = CY_SCB_I2C_SUCCESS ∧
    (read_bytes (n + 1) off CY_SCB_I2C_ACK buf status w).2.2.trace =
      w.trace ++ ack_reads off n ++ [Effect.MasterReadByte CY_SCB_I2C_NAK (off + n)] ∧
    (∀ j, j < n + 1 →
      (read_bytes (n + 1) off CY_SCB_I2C_ACK buf status w).2.1 (off + j) =
        w.rx (w.pdl_calls + j)) ∧
    (∀ i, (i < off ∨ off + n + 1 ≤ i) →
      (read_bytes (n + 1) off CY_SCB_I2C_ACK buf status w).2.1 i = buf i) := by
  induction n generalizing off status buf w with
  | zero =>
    have h0 : w.pdl w.pdl_calls = CY_SCB_I2C_SUCCESS := by simpa using hall 0 (by omega)
    have hstep : read_bytes (0 + 1) off CY_SCB_I2C_ACK buf status w =
        (w.pdl w.pdl_calls, Function.update buf off (w.rx w.pdl_calls),
          (pdl_call (Effect.MasterReadByte CY_SCB_I2C_NAK off) w).2) := by
      simp [read_bytes, pdl_call, h0]
    rw [hstep]
    refine ⟨h0, by simp [pdl_call, ack_reads], ?_, ?_⟩
    · intro j hj
      have hj0 : j = 0 := by omega
      subst hj0
      simp
    · intro i hi
      have hne : i ≠ off := by omega
      simp [Function.update_noteq hne]
  | succ n ih =>
    have h0 : w.pdl w.pdl_calls = CY_SCB_I2C_SUCCESS := by simpa using hall 0 (by omega)
    have hstep : read_bytes (n + 1 + 1) off CY_SCB_I2C_ACK buf status w =
        read_bytes (n + 1) (off + 1) CY_SCB_I2C_ACK
          (Function.update buf off (w.rx w.pdl_calls)) (w.pdl w.pdl_calls)
          (pdl_call (Effect.MasterReadByte CY_SCB_I2C_ACK off) w).2 := by
      simp [read_bytes, pdl_call, h0]
    have hall1 : ∀ j, j < n + 1 →
        (pdl_call (Effect.MasterReadByte CY_SCB_I2C_ACK off) w).2.pdl
          ((pdl_call (Effect.MasterReadByte CY_SCB_I2C_ACK off) w).2.pdl_calls + j) =
          CY_SCB_I2C_SUCCESS := by
      intro j hj
      show w.pdl (w.pdl_calls + 1 + j) = CY_SCB_I2C_SUCCESS
      rw [Nat.add_assoc, Nat.add_comm 1 j]
      exact hall (j + 1) (by omega)
    obtain ⟨hres, htr, hin, hout⟩ := ih (off + 1) (w.pdl w.pdl_calls)
      (Function.update buf off (w.rx w.pdl_calls))
      (pdl_call (Effect.MasterReadByte CY_SCB_I2C_ACK off) w).2 hall1
    rw [hstep]
    refine ⟨hres, ?_, ?_, ?_⟩
    · rw [htr]
      have hoff : off + 1 + n = off + (n + 1) := by omega
      simp [pdl_call, ack_reads, hoff]
    · intro j hj
      cases j with
      | zero =>
        simp only [Nat.add_zero]
        rw [hout off (Or.inl (by omega))]
        simp
      | succ j =>
        have hoff : off + (j + 1) = off + 1 + j := by omega
        rw [hoff, hin j (by omega)]
        show w.rx (w.pdl_calls + 1 + j) = w.rx (w.pdl_calls + (j + 1))
        rw [Nat.add_assoc, Nat.add_comm 1 j]
    · intro i hi
      have hne : i ≠ off := by omega
      rw [hout i (by omega)]
      simp [Function.update_noteq hne]

/-- Source `cyi2c_master_read` with the two branches of the start merged. -/
theorem cyi2c_master_read_unfold (dev_addr : Nat) (data : Nat → Nat) (size : Nat)
    (send_stop : Bool) (w : World) :
    cyi2c_master_read dev_addr data size send_stop w =
      ((if w.pdl w.pdl_calls = CY_SCB_I2C_SUCCESS then
          read_bytes size 0 CY_SCB_I2C_ACK data (w.pdl w.pdl_calls)
            (pdl_call (start_of dev_addr CY_SCB_I2C_READ_XFER w) w).2
        else
          (w.pdl w.pdl_calls, data, (pdl_call (start_of dev_addr CY_SCB_I2C_READ_XFER w) w).2)).1,
       (if w.pdl w.pdl_calls = CY_SCB_I2C_SUCCESS then
          read_bytes size 0 CY_SCB_I2C_ACK data (w.pdl w.pdl_calls)
            (pdl_call (start_of dev_addr CY_SCB_I2C_READ_XFER w) w).2
        else
          (w.pdl w.pdl_calls, data,
            (pdl_call (start_of dev_addr CY_SCB_I2C_READ_XFER w) w).2)).2.1,
       if send_stop then
         (pdl_call Effect.MasterSendStop
           (if w.pdl w.pdl_calls = CY_SCB_I2C_SUCCESS then
              read_bytes size 0 CY_SCB_I2C_ACK data (w.pdl w.pdl_calls)
                (pdl_call (start_of dev_addr CY_SCB_I2C_READ_XFER w) w).2
            else
              (w.pdl w.pdl_calls, data,
                (pdl_call (start_of dev_addr CY_SCB_I2C_READ_XFER w) w).2)).2.2).2
       else
         (if w.pdl w.pdl_calls = CY_SCB_I2C_SUCCESS then
            read_bytes size 0 CY_SCB_I2C_ACK data (w.pdl w.pdl_calls)
              (pdl_call (start_of dev_addr CY_SCB_I2C_READ_XFER w) w).2
          else
            (w.pdl w.pdl_calls, data,
              (pdl_call (start_of dev_addr CY_SCB_I2C_READ_XFER w) w).2)).2.2) := by
  rcases Bool.eq_false_or_eq_true w.idle with hi | hi
  · simp [cyi2c_master_read, start_of, pdl_call, hi]
  · simp [cyi2c_master_read, start_of, pdl_call, hi]

/-! ### Claims on the bus driver -/

/-- C26: `cyi2c_master_write` returns `CY_SCB_I2C_SUCCESS` exactly when the
start (or restart) and all `size` byte writes succeed.  Its PDL calls are:
the two clean-up calls, the start, the first `m` bytes of the buffer in
order, and a stop exactly when `send_stop` is set.  If the start fails no
byte is written and the start's status is returned; otherwise every byte
before the last written one succeeded, and either all `size` bytes were
written with success or the last written byte is the first failure and its
status is returned. -/
theorem cyi2c_master_write_status_and_order (dev_addr : Nat) (data : Nat → Nat) (size : Nat)
    (send_stop : Bool) (w : World) :
    ((cyi2c_master_write dev_addr data size send_stop w).1 = CY_SCB_I2C_SUCCESS ↔
      (w.pdl w.pdl_calls = CY_SCB_I2C_SUCCESS ∧
        ∀ j, j < size → w.pdl (w.pdl_calls + 1 + j) = CY_SCB_I2C_SUCCESS)) ∧
    ∃ m, m ≤ size ∧
      (cyi2c_master_write dev_addr data size send_stop w).2.trace =
        w.trace ++ [Effect.ClearMasterInterrupt, Effect.ClearTxFifo,
          start_of dev_addr CY_SCB_I2C_WRITE_XFER w] ++ byte_writes data 0 m ++
          stop_of send_stop ∧
      (w.pdl w.pdl_calls ≠ CY_SCB_I2C_SUCCESS →
        m = 0 ∧ (cyi2c_master_write dev_addr data size send_stop w).1 = w.pdl w.pdl_calls) ∧
      (w.pdl w.pdl_calls = CY_SCB_I2C_SUCCESS →
        (∀ j, j + 1 < m → w.pdl (w.pdl_calls + 1 + j) = CY_SCB_I2C_SUCCESS) ∧
        ((m = size ∧
            (cyi2c_master_write dev_addr data size send_stop w).1 = CY_SCB_I2C_SUCCESS) ∨
         (1 ≤ m ∧ w.pdl (w.pdl_calls + m) ≠ CY_SCB_I2C_SUCCESS ∧
            (cyi2c_master_write dev_addr data size send_stop w).1 =
              w.pdl (w.pdl_calls + m)))) := by
  rw [cyi2c_master_write_unfold]
  by_cases h0 : w.pdl w.pdl_calls = CY_SCB_I2C_SUCCESS
  · simp only [if_pos h0]
    obtain ⟨m, hm, htr, hpre, hcase⟩ := write_bytes_spec data size 0 (w.pdl w.pdl_calls)
      (pdl_call (start_of dev_addr CY_SCB_I2C_WRITE_XFER w)
        (pdl_void Effect.ClearTxFifo (pdl_void Effect.ClearMasterInterrupt w))).2 h0
    have hidx : ∀ j, (pdl_call (start_of dev_addr CY_SCB_I2C_WRITE_XFER w)
        (pdl_void Effect.ClearTxFifo (pdl_void Effect.ClearMasterInterrupt w))).2.pdl
        ((pdl_call (start_of dev_addr CY_SCB_I2C_WRITE_XFER w)
        (pdl_void Effect.ClearTxFifo (pdl_void Effect.ClearMasterInterrupt w))).2.pdl_calls + j) =
        w.pdl (w.pdl_calls + 1 + j) := fun _ => rfl
    have hpre1 : ∀ j, j + 1 < m → w.pdl (w.pdl_calls + 1 + j) = CY_SCB_I2C_SUCCESS := by
      intro j hj
      rw [← hidx j]
      exact hpre j hj
    constructor
    · constructor
      · intro hres
        refine ⟨h0, ?_⟩
        rcases hcase with ⟨_, _, hall⟩ | ⟨_, hfail, hst⟩
        · intro j hj
          rw [← hidx j]
          exact hall j hj
        · exact absurd (hst ▸ hres) hfail
      · rintro ⟨_, hall⟩
        rcases hcase with ⟨_, hst, _⟩ | ⟨hm1, hfail, _⟩
        · exact hst
        · exact absurd (by rw [hidx (m - 1)]; exact hall (m - 1) (by omega)) hfail
    · refine ⟨m, hm, ?_, fun hne => absurd h0 hne, fun _ => ⟨hpre1, ?_⟩⟩
      · rw [stop_appended, htr, write_started]
      · rcases hcase with ⟨hms, hst, _⟩ | ⟨hm1, hfail, hst⟩
        · exact Or.inl ⟨hms, hst⟩
        · have hm' : w.pdl_calls + m = w.pdl_calls + 1 + (m - 1) := by omega
          refine Or.inr ⟨hm1, ?_, ?_⟩
          · rw [hm', ← hidx (m - 1)]
            exact hfail
          · rw [hst, hm', ← hidx (m - 1)]
  · simp only [if_neg h0]
    constructor
    · constructor
      · intro hres
        exact absurd hres h0
      · rintro ⟨hs, _⟩
        exact absurd hs h0
    · refine ⟨0, Nat.zero_le _, ?_, fun _ => ⟨rfl, rfl⟩, fun hs => absurd hs h0⟩
      rw [stop_appended, write_started]
      simp [byte_writes]

/-- C26 at concrete inputs: three bytes with every call succeeding, and three
bytes of which the second fails with status 6. -/
theorem cyi2c_master_write_status_and_order_witness :
    (cyi2c_master_write 0x30 sample_buffer 3 true bus_ok).1 = CY_SCB_I2C_SUCCESS ∧
    (cyi2c_master_write 0x30 sample_buffer 3 true bus_second_byte_fails).1 ≠
      CY_SCB_I2C_SUCCESS ∧
    (cyi2c_master_write 0x30 sample_buffer 3 true bus_second_byte_fails).2.trace =
      [Effect.ClearMasterInterrupt, Effect.ClearTxFifo,
        Effect.MasterSendStart 0x30 CY_SCB_I2C_WRITE_XFER, Effect.MasterWriteByte 10,
        Effect.MasterWriteByte 11, Effect.MasterSendStop] :=
  ⟨(cyi2c_master_write_status_and_order 0x30 sample_buffer 3 true bus_ok).1.mpr
      ⟨rfl, fun _ _ => rfl⟩,
   fun hres => absurd
     (((cyi2c_master_write_status_and_order 0x30 sample_buffer 3 true
        bus_second_byte_fails).1.mp hres).2 1 (by decide)) (by decide),
   rfl⟩

/-- C27: for `size ≥ 1`, when the start and all `size` byte reads succeed,
`cyi2c_master_read` returns `CY_SCB_I2C_SUCCESS`; after the start it makes
`size - 1` byte reads with ACK into the offsets `0, ..., size - 2` and one
last byte read with NAK into the offset `size - 1` (then the stop, when
requested); the offsets below `size` hold the bytes received, in order, and
the rest of the buffer is as before.  For `size = 0` it makes no byte read,
leaves the buffer alone and returns the status of the start. -/
theorem cyi2c_master_read_ack_then_nak (dev_addr : Nat) (data : Nat → Nat) (size : Nat)
    (send_stop : Bool) (w : World) :
    (1 ≤ size → w.pdl w.pdl_calls = CY_SCB_I2C_SUCCESS →
      (∀ j, j < size → w.pdl (w.pdl_calls + 1 + j) = CY_SCB_I2C_SUCCESS) →
      (cyi2c_master_read dev_addr data size send_stop w).1 = CY_SCB_I2C_SUCCESS ∧
      (cyi2c_master_read dev_addr data size send_stop w).2.2.trace =
        w.trace ++ [start_of dev_addr CY_SCB_I2C_READ_XFER w] ++ ack_reads 0 (size - 1) ++
          [Effect.MasterReadByte CY_SCB_I2C_NAK (size - 1)] ++ stop_of send_stop ∧
      (∀ j, j < size →
        (cyi2c_master_read dev_addr data size send_stop w).2.1 j =
          w.rx (w.pdl_calls + 1 + j)) ∧
      (∀ i, size ≤ i → (cyi2c_master_read dev_addr data size send_stop w).2.1 i = data i)) ∧
    ((cyi2c_master_read dev_addr data 0 send_stop w).1 = w.pdl w.pdl_calls ∧
      (cyi2c_master_read dev_addr data 0 send_stop w).2.1 = data ∧
      (cyi2c_master_read dev_addr data 0 send_stop w).2.2.trace =
        w.trace ++ [start_of dev_addr CY_SCB_I2C_READ_XFER w] ++ stop_of send_stop) := by
  constructor
  · intro hsize h0 hall
    obtain ⟨n, hn⟩ : ∃ n, size = n + 1 := ⟨size - 1, by omega⟩
    subst hn
    have hall1 : ∀ j, j < n + 1 →
        (pdl_call (start_of dev_addr CY_SCB_I2C_READ_XFER w) w).2.pdl
          ((pdl_call (start_of dev_addr CY_SCB_I2C_READ_XFER w) w).2.pdl_calls + j) =
          CY_SCB_I2C_SUCCESS := fun j hj => hall j hj
    obtain ⟨hres, htr, hin, hout⟩ := read_bytes_all_ok n 0 (w.pdl w.pdl_calls) data
      (pdl_call (start_of dev_addr CY_SCB_I2C_READ_XFER w) w).2 hall1
    rw [cyi2c_master_read_unfold]
    simp only [if_pos h0]
    refine ⟨hres, ?_, ?_, ?_⟩
    · rw [stop_appended, htr]
      simp [pdl_call]
    · intro j hj
      have := hin j hj
      rw [Nat.zero_add] at this
      exact this
    · intro i hi
      exact hout i (Or.inr (by omega))
  · rw [cyi2c_master_read_unfold]
    by_cases h0 : w.pdl w.pdl_calls = CY_SCB_I2C_SUCCESS
    · simp only [if_pos h0, read_bytes]
      refine ⟨trivial, trivial, ?_⟩
      rw [stop_appended]
      simp [pdl_call]
    · simp only [if_neg h0]
      refine ⟨trivial, trivial, ?_⟩
      rw [stop_appended]
      simp [pdl_call]

/-- C27 at a concrete input: three bytes read on a bus where every call
succeeds. -/
theorem cyi2c_master_read_ack_then_nak_witness :
    (cyi2c_master_read 0x30 sample_buffer 3 true bus_ok).2.2.trace =
      [Effect.MasterSendStart 0x30 CY_SCB_I2C_READ_XFER,
        Effect.MasterReadByte CY_SCB_I2C_ACK 0, Effect.MasterReadByte CY_SCB_I2C_ACK 1,
        Effect.MasterReadByte CY_SCB_I2C_NAK 2, Effect.MasterSendStop] ∧
    (cyi2c_master_read 0x30 sample_buffer 3 true bus_ok).2.1 0 = 201 ∧
    (cyi2c_master_read 0x30 sample_buffer 3 true bus_ok).2.1 2 = 203 ∧
    (cyi2c_master_read 0x30 sample_buffer 3 true bus_ok).2.1 3 = 13 := by
  obtain ⟨_, htr, hin, hout⟩ :=
    (cyi2c_master_read_ack_then_nak 0x30 sample_buffer 3 true bus_ok).1 (by decide) rfl
      (fun _ _ => rfl)
  exact ⟨htr, hin 0 (by decide), hin 2 (by decide), hout 3 (by decide)⟩

end UsbI2c

namespace PalI2c

open pal_status_t pal_i2c_event

variable {U : Type}

/-! ### Lemmas for any registered handler -/

theorem attempts_to_fixed_peer (p_data : List Nat) (length : Nat) (n : Nat) :
    ∀ e, e ∈ attempts p_data length n → to_fixed_peer e = true := by
  induction n with
  | zero => intro e he; simp [attempts] at he
  | succ n ih =>
    intro e he
    simp only [attempts, attempt, List.cons_append, List.nil_append, List.mem_cons] at he
    rcases he with rfl | rfl | he
    · simp [to_fixed_peer]
    · rfl
    · exact ih e he

/-- A granted write with any handler `hd`: the handler runs on
`write_callback_world`, after the release for Success and before it for
Error. -/
theorem write_any_cases (ctx : pal_i2c_t U) (hd : upper_layer_callback_t U)
    (h : ctx.upper_layer_event_handler = some hd)
    (p_data : List Nat) (length : Nat) (w : World U) (hfree : w.g_entry_count = 0) :
    ∃ n, 1 ≤ n ∧ n ≤ 3 ∧
      (pal_i2c_write ctx p_data length w =
          some (PAL_STATUS_SUCCESS, hd ctx.p_upper_layer_ctx PAL_I2C_EVENT_SUCCESS
            (write_callback_world ctx p_data length n PAL_I2C_EVENT_SUCCESS w)) ∨
       (n = 3 ∧ pal_i2c_write ctx p_data length w =
          some (PAL_STATUS_FAILURE, pal_i2c_release
            (hd ctx.p_upper_layer_ctx PAL_I2C_EVENT_ERROR
              (write_callback_world ctx p_data length 3 PAL_I2C_EVENT_ERROR w))))) := by
  by_cases h0 : w.bus w.bus_calls = 0
  · refine ⟨1, by omega, by omega, Or.inl ?_⟩
    have hl := loop_first p_data length { w with g_entry_count := 1 } h0
    simp only [pal_i2c_write, acquire_free w hfree, hl]
    simp [call_upper_layer_event_handler, h, pal_i2c_release, write_callback_world, attempts]
  · by_cases h1 : w.bus (w.bus_calls + 1) = 0
    · refine ⟨2, by omega, by omega, Or.inl ?_⟩
      have hl := loop_second p_data length { w with g_entry_count := 1 } h0 h1
      simp only [pal_i2c_write, acquire_free w hfree, hl]
      simp [call_upper_layer_event_handler, h, pal_i2c_release, write_callback_world, attempts]
    · have hl := loop_third p_data length { w with g_entry_count := 1 } h0 h1
      by_cases h2 : w.bus (w.bus_calls + 2) = 0
      · refine ⟨3, by omega, by omega, Or.inl ?_⟩
        simp only [pal_i2c_write, acquire_free w hfree, hl]
        simp [call_upper_layer_event_handler, h, pal_i2c_release, write_callback_world,
          attempts, h2]
      · refine ⟨3, by omega, by omega, Or.inr ⟨rfl, ?_⟩⟩
        simp only [pal_i2c_write, acquire_free w hfree, hl]
        simp [call_upper_layer_event_handler, h, pal_i2c_release, write_callback_world,
          attempts, h2]

/-- A granted read with any handler `hd`: the handler runs on
`read_callback_world`, before any release. -/
theorem read_any_cases (ctx : pal_i2c_t U) (hd : upper_layer_callback_t U)
    (h : ctx.upper_layer_event_handler = some hd)
    (p_data : List Nat) (length : Nat) (w : World U) (hfree : w.g_entry_count = 0) :
    pal_i2c_read ctx p_data length w =
        some (PAL_STATUS_SUCCESS, pal_i2c_release
          (hd ctx.p_upper_layer_ctx PAL_I2C_EVENT_SUCCESS
            (read_callback_world ctx p_data length PAL_I2C_EVENT_SUCCESS w))) ∨
    pal_i2c_read ctx p_data length w =
        some (PAL_STATUS_FAILURE, pal_i2c_release (pal_i2c_release
          (hd ctx.p_upper_layer_ctx PAL_I2C_EVENT_ERROR
            (read_callback_world ctx p_data length PAL_I2C_EVENT_ERROR w)))) := by
  by_cases h0 : w.bus w.bus_calls = 0
  · left
    simp only [pal_i2c_read, acquire_free w hfree]
    simp [cyi2c_master_read, call_upper_layer_event_handler, h, pal_i2c_release,
      read_callback_world, h0]
  · right
    simp only [pal_i2c_read, acquire_free w hfree]
    simp [cyi2c_master_read, call_upper_layer_event_handler, h, pal_i2c_release,
      read_callback_world, h0]

/-- The transport call `probe` makes on a free token is granted: the logged
status is not Busy. -/
theorem probe_on_free (use_read : Bool) (p_data : List Nat) (length : Nat) (c : Nat)
    (e : pal_i2c_event) (v : World (List (Nat × pal_status_t))) (hv : v.g_entry_count = 0) :
    ∃ st, st ≠ PAL_STATUS_I2C_BUSY ∧
      (probe use_read p_data length c e v).upper = v.upper ++ [(0, st)] := by
  cases use_read with
  | false =>
    obtain ⟨n, st, ev, _, _, hw, _, hcase⟩ :=
      write_granted_cases inert_ctx (fun _ _ log => log) rfl p_data length v hv
    refine ⟨st, ?_, ?_⟩
    · rcases hcase with ⟨hs, _, _⟩ | ⟨hs, _, _, _⟩ <;> subst hs <;> simp
    · simp [probe, hw, write_done, hv]
  | true =>
    by_cases h0 : v.bus v.bus_calls = 0
    · refine ⟨PAL_STATUS_SUCCESS, by simp, ?_⟩
      simp [probe, read_ok inert_ctx (fun _ _ log => log) rfl p_data length v hv h0, hv]
    · refine ⟨PAL_STATUS_FAILURE, by simp, ?_⟩
      simp [probe, read_fail inert_ctx (fun _ _ log => log) rfl p_data length v hv h0, hv]

/-- The transport call `probe` makes on a held token is denied with Busy. -/
theorem probe_on_held (use_read : Bool) (p_data : List Nat) (length : Nat) (c : Nat)
    (e : pal_i2c_event) (v : World (List (Nat × pal_status_t))) (hv : v.g_entry_count ≠ 0) :
    (probe use_read p_data length c e v).upper =
      v.upper ++ [(v.g_entry_count, PAL_STATUS_I2C_BUSY)] := by
  cases use_read with
  | false =>
    simp [probe, write_held inert_ctx (fun _ _ log => log) rfl p_data length v hv]
  | true =>
    simp [probe, read_held inert_ctx (fun _ _ log => log) rfl p_data length v hv]

/-- Every call into the module leaves `gp_pal_i2c_current_ctx` as it was. -/
theorem step_keeps_pointer (op : Op U) (m m1 : Module U) (hstep : step op m = some m1) :
    m1.gp_pal_i2c_current_ctx = m.gp_pal_i2c_current_ctx := by
  cases op <;>
    simp only [step, i2c_master_end_of_transmit_callback, i2c_master_end_of_receive_callback,
      i2c_master_error_detected_callback, i2c_master_nack_received_callback,
      i2c_master_arbitration_lost_callback, Option.map_eq_some', Option.some.injEq] at hstep
  all_goals first
    | (obtain ⟨_, _, hm⟩ := hstep; rw [← hm])
    | rw [← hstep]

theorem run_keeps_pointer (ops : List (Op U)) (m m1 : Module U) (hrun : run ops m = some m1) :
    m1.gp_pal_i2c_current_ctx = m.gp_pal_i2c_current_ctx := by
  induction ops generalizing m with
  | nil =>
    simp only [run, Option.some.injEq] at hrun
    rw [hrun]
  | cons op rest ih =>
    cases hs : step op m with
    | none => simp [run, hs] at hrun
    | some m2 =>
      simp only [run, hs] at hrun
      rw [ih m2 hrun, step_keeps_pointer op m m2 hs]

/-! ### Claims on the peer address, nested calls and the current-context pointer -/

/-- C25: `pal_i2c_write` and `pal_i2c_read` do not depend on the
`slave_address` of the context: for a context and its copy with any other
`slave_address` the whole result (trace of driver calls, delivered event,
returned status, final state) is the same.  With a handler acting on the
upper layer only, every driver call the two functions add to the trace goes
to `OPTIGA_FX_ADDR` (0x30) with the stop flag set. -/
theorem pal_i2c_write_read_fixed_peer (ctx : pal_i2c_t U) (f : Nat → pal_i2c_event → U → U)
    (h : ctx.upper_layer_event_handler = some (upper_only f)) (slave_address : Nat)
    (p_data : List Nat) (length : Nat) (w : World U) :
    pal_i2c_write { ctx with slave_address := slave_address } p_data length w =
      pal_i2c_write ctx p_data length w ∧
    pal_i2c_read { ctx with slave_address := slave_address } p_data length w =
      pal_i2c_read ctx p_data length w ∧
    (∃ st w1 t, pal_i2c_write ctx p_data length w = some (st, w1) ∧
      w1.trace = w.trace ++ t ∧ ∀ e, e ∈ t → to_fixed_peer e = true) ∧
    (∃ st w1 t, pal_i2c_read ctx p_data length w = some (st, w1) ∧
      w1.trace = w.trace ++ t ∧ ∀ e, e ∈ t → to_fixed_peer e = true) := by
  refine ⟨rfl, rfl, ?_, ?_⟩
  · by_cases hg : w.g_entry_count = 0
    · obtain ⟨n, st, ev, _, _, hw, _, _⟩ := write_granted_cases ctx f h p_data length w hg
      refine ⟨st, _, _, hw, rfl, ?_⟩
      intro e he
      rcases List.mem_append.mp he with he | he
      · exact attempts_to_fixed_peer p_data length n e he
      · simp only [List.mem_singleton] at he
        subst he
        rfl
    · refine ⟨_, _, _, write_held ctx f h p_data length w hg, rfl, ?_⟩
      intro e he
      simp only [List.mem_singleton] at he
      subst he
      rfl
  · by_cases hg : w.g_entry_count = 0
    · by_cases h0 : w.bus w.bus_calls = 0
      · refine ⟨_, _, _, read_ok ctx f h p_data length w hg h0, rfl, ?_⟩
        intro e he
        simp only [List.mem_cons, List.mem_singleton, List.not_mem_nil, or_false] at he
        rcases he with rfl | rfl
        · simp [to_fixed_peer]
        · rfl
      · refine ⟨_, _, _, read_fail ctx f h p_data length w hg h0, rfl, ?_⟩
        intro e he
        simp only [List.mem_cons, List.mem_singleton, List.not_mem_nil, or_false] at he
        rcases he with rfl | rfl
        · simp [to_fixed_peer]
        · rfl
    · refine ⟨_, _, _, read_held ctx f h p_data length w hg, rfl, ?_⟩
      intro e he
      simp only [List.mem_singleton] at he
      subst he
      rfl

/-- C25 at a concrete input: the sample context and its copy with
`slave_address = 0x55` give the same result, and the driver is addressed at
0x30. -/
theorem pal_i2c_write_read_fixed_peer_witness :
    pal_i2c_write { sample_ctx with slave_address := 0x55 } [1, 2] 2
        (sample_world 0 always_ok) =
      pal_i2c_write sample_ctx [1, 2] 2 (sample_world 0 always_ok) ∧
    ∃ st w1 t, pal_i2c_write sample_ctx [1, 2] 2 (sample_world 0 always_ok) = some (st, w1) ∧
      w1.trace = (sample_world 0 always_ok).trace ++ t ∧
      ∀ e, e ∈ t → to_fixed_peer e = true :=
  ⟨(pal_i2c_write_read_fixed_peer sample_ctx log_event rfl 0x55 [1, 2] 2
      (sample_world 0 always_ok)).1,
   (pal_i2c_write_read_fixed_peer sample_ctx log_event rfl 0x55 [1, 2] 2
      (sample_world 0 always_ok)).2.2.1⟩

/-- C28: with the handler `probe`, which makes a transport call (a read or a
write) from inside the callback and logs the counter it was entered with and
the status of that call: in a granted `pal_i2c_write` that returns Success
the handler saw the counter at 0 and its call was granted (not Busy); in one
that returns Failure the handler saw the counter at 1 and its call was denied
with Busy; in a granted `pal_i2c_read` the handler saw the counter at 1 and
its call was denied with Busy, whether the read succeeded or failed. -/
theorem callback_token_state_by_path (use_read : Bool) (nested_data : List Nat)
    (nested_length : Nat) (p_data : List Nat) (length : Nat)
    (w : World (List (Nat × pal_status_t))) (hfree : w.g_entry_count = 0) :
    (∃ st w1 obs,
      pal_i2c_write (probe_ctx use_read nested_data nested_length) p_data length w =
        some (st, w1) ∧
      w1.upper = w.upper ++ [obs] ∧
      ((st = PAL_STATUS_SUCCESS ∧ obs.1 = 0 ∧ obs.2 ≠ PAL_STATUS_I2C_BUSY) ∨
       (st = PAL_STATUS_FAILURE ∧ obs.1 = 1 ∧ obs.2 = PAL_STATUS_I2C_BUSY))) ∧
    (∃ st w1,
      pal_i2c_read (probe_ctx use_read nested_data nested_length) p_data length w =
        some (st, w1) ∧
      (st = PAL_STATUS_SUCCESS ∨ st = PAL_STATUS_FAILURE) ∧
      w1.upper = w.upper ++ [(1, PAL_STATUS_I2C_BUSY)]) := by
  constructor
  · obtain ⟨n, _, _, hcase⟩ := write_any_cases (probe_ctx use_read nested_data nested_length)
      (probe use_read nested_data nested_length) rfl p_data length w hfree
    rcases hcase with hw | ⟨_, hw⟩
    · obtain ⟨st, hst, hup⟩ := probe_on_free use_read nested_data nested_length
        (probe_ctx use_read nested_data nested_length).p_upper_layer_ctx PAL_I2C_EVENT_SUCCESS
        (write_callback_world (probe_ctx use_read nested_data nested_length) p_data length n
          PAL_I2C_EVENT_SUCCESS w) rfl
      exact ⟨_, _, (0, st), hw, hup, Or.inl ⟨rfl, rfl, hst⟩⟩
    · have hup := probe_on_held use_read nested_data nested_length
        (probe_ctx use_read nested_data nested_length).p_upper_layer_ctx PAL_I2C_EVENT_ERROR
        (write_callback_world (probe_ctx use_read nested_data nested_length) p_data length 3
          PAL_I2C_EVENT_ERROR w) (by simp [write_callback_world])
      exact ⟨_, _, (1, PAL_STATUS_I2C_BUSY), hw, hup, Or.inr ⟨rfl, rfl, rfl⟩⟩
  · rcases read_any_cases (probe_ctx use_read nested_data nested_length)
      (probe use_read nested_data nested_length) rfl p_data length w hfree with hr | hr
    · have hup := probe_on_held use_read nested_data nested_length
        (probe_ctx use_read nested_data nested_length).p_upper_layer_ctx PAL_I2C_EVENT_SUCCESS
        (read_callback_world (probe_ctx use_read nested_data nested_length) p_data length
          PAL_I2C_EVENT_SUCCESS w) (by simp [read_callback_world])
      exact ⟨_, _, hr, Or.inl rfl, hup⟩
    · have hup := probe_on_held use_read nested_data nested_length
        (probe_ctx use_read nested_data nested_length).p_upper_layer_ctx PAL_I2C_EVENT_ERROR
        (read_callback_world (probe_ctx use_read nested_data nested_length) p_data length
          PAL_I2C_EVENT_ERROR w) (by simp [read_callback_world])
      exact ⟨_, _, hr, Or.inr rfl, hup⟩

/-- C28 at concrete inputs: a nested write from the Success callback of a
write is granted and returns Success; from the callback of a successful read
it is denied. -/
theorem callback_token_state_by_path_witness :
    (pal_i2c_write (probe_ctx false [9] 1) [1, 2] 2 (probe_world 0 always_ok)).map
        (fun r => (r.1, r.2.upper)) =
      some (PAL_STATUS_SUCCESS, [(0, PAL_STATUS_SUCCESS)]) ∧
    ∃ st w1, pal_i2c_read (probe_ctx false [9] 1) [1, 2] 2 (probe_world 0 always_ok) =
        some (st, w1) ∧
      w1.upper = [(1, PAL_STATUS_I2C_BUSY)] := by
  obtain ⟨_, st, w1, hr, _, hup⟩ :=
    callback_token_state_by_path false [9] 1 [1, 2] 2 (probe_world 0 always_ok) rfl
  exact ⟨rfl, st, w1, hr, hup⟩

/-- C30: no call into `pal_i2c.c` changes `gp_pal_i2c_current_ctx`, so in
every state reached from start-up by entry points and interrupt-style
callbacks the pointer is NULL; there each of the five callbacks hands NULL to
`invoke_upper_layer_callback`, which has no defined result because it reads
the handler through that pointer. -/
theorem gp_pal_i2c_current_ctx_stays_null (w0 : World U) (ops : List (Op U)) (m : Module U)
    (hrun : run ops (module_startup w0) = some m) :
    m.gp_pal_i2c_current_ctx = none ∧
    (∀ op m1, step op m = some m1 → m1.gp_pal_i2c_current_ctx = none) ∧
    (∀ event, invoke_upper_layer_callback m.gp_pal_i2c_current_ctx event m.world = none) ∧
    i2c_master_end_of_transmit_callback m = none ∧
    i2c_master_end_of_receive_callback m = none ∧
    i2c_master_error_detected_callback m = none ∧
    i2c_master_nack_received_callback m = none ∧
    i2c_master_arbitration_lost_callback m = none := by
  have hnull : m.gp_pal_i2c_current_ctx = none := by
    rw [run_keeps_pointer ops (module_startup w0) m hrun]
    rfl
  refine ⟨hnull, fun op m1 hs => by rw [step_keeps_pointer op m m1 hs, hnull],
    fun event => by rw [hnull]; rfl, ?_, ?_, ?_, ?_, ?_⟩
  · simp [i2c_master_end_of_transmit_callback, invoke_upper_layer_callback, hnull]
  · simp [i2c_master_end_of_receive_callback, invoke_upper_layer_callback, hnull]
  · simp [i2c_master_error_detected_callback, invoke_upper_layer_callback, hnull]
  · simp [i2c_master_nack_received_callback, i2c_master_error_detected_callback,
      invoke_upper_layer_callback, hnull]
  · simp [i2c_master_arbitration_lost_callback, i2c_master_error_detected_callback,
      invoke_upper_layer_callback, hnull]

/-- C30 at a concrete input: after init, a write, a read, deinit and
set_bitrate the pointer is NULL and the end-of-transmit callback has no
defined result. -/
theorem gp_pal_i2c_current_ctx_stays_null_witness :
    ∃ m, run [Op.init sample_ctx 100000, Op.write sample_ctx [1] 1, Op.read sample_ctx [1] 1,
        Op.deinit sample_ctx, Op.set_bitrate sample_ctx 400]
        (module_startup (sample_world 0 always_ok)) = some m ∧
      m.gp_pal_i2c_current_ctx = none ∧
      i2c_master_end_of_transmit_callback m = none := by
  have hrun : ∃ m, run [Op.init sample_ctx 100000, Op.write sample_ctx [1] 1,
      Op.read sample_ctx [1] 1, Op.deinit sample_ctx, Op.set_bitrate sample_ctx 400]
      (module_startup (sample_world 0 always_ok)) = some m := ⟨_, rfl⟩
  obtain ⟨m, hm⟩ := hrun
  obtain ⟨hnull, _, _, heot, _⟩ :=
    gp_pal_i2c_current_ctx_stays_null (sample_world 0 always_ok) _ m hm
  exact ⟨m, hm, hnull, heot⟩

end PalI2c
